import Mathlib

/-!
Windows firewall helper: a verification development.

Shallow embedding of `WindowsFirewallHelper` (windowsfirewallhelper.cpp / .h):

* `toWinHex`   : formatting of an `HRESULT` as `0x` followed by eight hex digits;
* `authorize`  : the linear sequence of COM / firewall-policy calls with its single
  `Cleanup` exit, as a function from the status codes returned by the calls and the
  initial rule collection to the boolean result, the calls made, and the final
  rule collection.

Status codes are signed 32-bit values held in `Int`.  Strings (`QString`, `std::wstring`,
`BSTR`) are held as Lean strings: both strings the code handles are built from
NUL-terminated text, so the `toStdWString().c_str()` conversions keep every character.
The Qt and COM library calls follow their documented behaviour; in particular an interface
pointer is set exactly when the call that yields it succeeds, and a call that fails leaves
the rule collection as it was.
-/

namespace WindowsFirewallHelper

/-! ## Status codes (winerror.h) -/

/-- A COM status code: a signed 32-bit integer. -/
abbrev HRESULT := Int

/-- Range of a signed 32-bit value. -/
def isInt32 (v : Int) : Prop := -2147483648 ≤ v ∧ v < 2147483648

instance (v : Int) : Decidable (isInt32 v) := by unfold isInt32; infer_instance

def S_OK : HRESULT := 0
def S_FALSE : HRESULT := 1
/-- The code 0x80010106 read as a signed 32-bit value. -/
def RPC_E_CHANGED_MODE : HRESULT := 0x80010106 - 4294967296
/-- The code 0x80070005 read as a signed 32-bit value. -/
def E_ACCESSDENIED : HRESULT := 0x80070005 - 4294967296
/-- The code 0x80070002, `HRESULT_FROM_WIN32(ERROR_FILE_NOT_FOUND)`, read as a signed 32-bit
value. -/
def E_FILE_NOT_FOUND : HRESULT := 0x80070002 - 4294967296

/-- The macro `FAILED(hr)`: `((HRESULT)(hr)) < 0`. -/
def FAILED (hr : HRESULT) : Prop := hr < 0

/-- The macro `SUCCEEDED(hr)`: `((HRESULT)(hr)) >= 0`. -/
def SUCCEEDED (hr : HRESULT) : Prop := 0 ≤ hr

instance (hr : HRESULT) : Decidable (FAILED hr) := by unfold FAILED; infer_instance
instance (hr : HRESULT) : Decidable (SUCCEEDED hr) := by unfold SUCCEEDED; infer_instance

/-! ## `toWinHex` -/

/-- Digit character written by `QString::number` for a digit below 16: `0`..`9`, `a`..`f`. -/
def digitChar (c : Nat) : Char :=
  if c < 10 then Char.ofNat (48 + c) else Char.ofNat (c - 10 + 97)

/-- The digit loop of `QString::number(n, base)`:
`while (l != 0) { c = l % base; *--p = digit(c); l /= base; }`. -/
def qulltoa (base : Nat) (l : Nat) (acc : List Char) : List Char :=
  if l = 0 ∨ base < 2 then acc
  else qulltoa base (l / base) (digitChar (l % base) :: acc)
termination_by l
decreasing_by
  rename_i h
  have h0 : l ≠ 0 := fun e => h (Or.inl e)
  have hb : 1 < base := by
    have : ¬ base < 2 := fun e => h (Or.inr e)
    omega
  exact Nat.div_lt_self (Nat.pos_of_ne_zero h0) hb

/-- The function `QString::number(n, base)` for an unsigned argument: the digits of `n`, most
significant first, lower case, at least one digit. -/
def QString_number (n : Nat) (base : Nat) : List Char :=
  let s := qulltoa base n []
  List.replicate (1 - s.length) '0' ++ s

/-- The function `QString::toUpper` (on the ASCII letters a hex string is made of). -/
def toUpper (s : List Char) : List Char := s.map Char.toUpper

/-- The padding done by `QString::arg(a, fieldWidth, fillChar)`: `a` is padded to
`|fieldWidth|` characters with `fillChar`, on the left when `fieldWidth` is positive
(right-aligned text), on the right when it is negative. -/
def argPad (a : List Char) (fieldWidth : Int) (fillChar : Char) : List Char :=
  let fill := List.replicate (fieldWidth.natAbs - a.length) fillChar
  if 0 ≤ fieldWidth then fill ++ a else a ++ fill

/-- The cast `static_cast<unsigned long>(value)`; `unsigned long` is 32 bits wide on Windows. -/
def toULong (value : HRESULT) : Nat := (value % 4294967296).toNat

/-- The function `WindowsFirewallHelper::toWinHex`:
`QString("0x%1").arg(QString::number(static_cast<unsigned long>(value), 16).toUpper(), 8,
QLatin1Char('0'))`. -/
def toWinHex (value : HRESULT) : String :=
  String.mk (['0', 'x'] ++ argPad (toUpper (QString_number (toULong value) 16)) 8 '0')

/-- Value of an upper-case hexadecimal digit (0 for any other character). -/
def hexDigitVal (c : Char) : Nat :=
  if '0' ≤ c ∧ c ≤ '9' then c.toNat - 48
  else if 'A' ≤ c ∧ c ≤ 'F' then c.toNat - 55
  else 0

/-- Whether a character is one of `0123456789ABCDEF`. -/
def isUpperHexDigit (c : Char) : Prop := ('0' ≤ c ∧ c ≤ '9') ∨ ('A' ≤ c ∧ c ≤ 'F')

instance (c : Char) : Decidable (isUpperHexDigit c) := by unfold isUpperHexDigit; infer_instance

/-- A digit string read as a base-16 number, most significant digit first. -/
def hexValue (ds : List Char) : Nat := ds.foldl (fun a c => 16 * a + hexDigitVal c) 0

/-! ## Firewall rules and the environment of `authorize` -/

/-- The enumeration `NET_FW_ACTION` (netfw.h). -/
inductive NET_FW_ACTION where
  | NET_FW_ACTION_BLOCK
  | NET_FW_ACTION_ALLOW
  deriving DecidableEq

/-- The enumeration `NET_FW_RULE_DIRECTION` (netfw.h). -/
inductive NET_FW_RULE_DIRECTION where
  | NET_FW_RULE_DIR_IN
  | NET_FW_RULE_DIR_OUT
  deriving DecidableEq

/-- The value `VARIANT_TRUE` passed to `put_Enabled`. -/
def VARIANT_TRUE : Bool := true

/-- The properties of an `INetFwRule` object that `authorize` writes.  A property that was
never written is `none`. -/
structure FirewallRule where
  name : Option String
  applicationName : Option String
  action : Option NET_FW_ACTION
  enabled : Option Bool
  direction : Option NET_FW_RULE_DIRECTION
  deriving DecidableEq

/-- What `authorize` reads from its surroundings.  `APPLICATION_SHORT_NAME` is the macro of
`mqttconnectorconfig.h`, `applicationFilePath` the value of
`QCoreApplication::applicationFilePath()`, `currentPath` the working directory of the
process (which `authorize` never reads). -/
structure Env where
  APPLICATION_SHORT_NAME : String
  applicationFilePath : String
  currentPath : String
  deriving DecidableEq

/-- The status returned by each external call of one run of `authorize`. -/
structure Outcomes where
  /-- Whether `SysAllocString` returned a non-null `BSTR`. -/
  bstrAllocated : Bool
  hrCoInitializeEx : HRESULT
  hrCreatePolicy2 : HRESULT
  hrGetRules : HRESULT
  hrItem : HRESULT
  hrRemove : HRESULT
  hrCreateRule : HRESULT
  hrPutName : HRESULT
  hrPutApplicationName : HRESULT
  hrPutAction : HRESULT
  hrPutEnabled : HRESULT
  hrPutDirection : HRESULT
  hrAdd : HRESULT
  deriving DecidableEq

/-- The resources `authorize` can come to own: the identity `BSTR`, the `INetFwPolicy2`
object, the `INetFwRules` collection, the `INetFwRule` returned by `Item`, and the
`INetFwRule` created by `CoCreateInstance`. -/
inductive Handle where
  | bstrAppName
  | fwPolicy2
  | fwRules
  | foundRule
  | newRule
  deriving DecidableEq

/-- The external calls `authorize` makes, with their arguments and returned status. -/
inductive Call where
  | SysAllocString (text : String) (ok : Bool)
  | CoInitializeEx (hr : HRESULT)
  | CoCreateInstance_NetFwPolicy2 (hr : HRESULT)
  | get_Rules (hr : HRESULT)
  | Item (name : String) (hr : HRESULT)
  | Remove (name : String) (hr : HRESULT)
  | CoCreateInstance_NetFwRule (hr : HRESULT)
  | put_Name (name : String) (hr : HRESULT)
  | put_ApplicationName (path : String) (hr : HRESULT)
  | put_Action (action : NET_FW_ACTION) (hr : HRESULT)
  | put_Enabled (enabled : Bool) (hr : HRESULT)
  | put_Direction (dir : NET_FW_RULE_DIRECTION) (hr : HRESULT)
  | Add (rule : FirewallRule) (hr : HRESULT)
  | SysFreeString (bstr : Option String)
  | Release (h : Handle)
  | CoUninitialize
  | qCritical (msg : String)
  | qInfo (msg : String)
  deriving DecidableEq

/-- Modelled from the spec: the platform-native form of a path, as `QDir::toNativeSeparators`
(Qt library, not part of the repository) gives it on Windows: backslash-separated, that is,
every `/` becomes `\` and nothing else changes. -/
def toNativeSeparators (pathName : String) : String :=
  String.mk (pathName.data.map (fun c => if c = '/' then '\\' else c))

/-! ## The firewall policy store -/

/-- Modelled from the spec: `deleteRule(collection, name)` of the OS firewall policy service
(`INetFwRules::Remove`, not part of the repository) when it succeeds: "remove any existing
rule with that identity"; rules with other names stay, in order. -/
def policyRemove (name : String) (rules : List FirewallRule) : List FirewallRule :=
  rules.filter (fun r => decide (r.name ≠ some name))

/-- Modelled from the spec: `addRule(collection, rule)` of the OS firewall policy service
(`INetFwRules::Add`, not part of the repository) when it succeeds: the rule joins the
collection, whatever the collection already holds. -/
def policyAdd (rule : FirewallRule) (rules : List FirewallRule) : List FirewallRule :=
  rules ++ [rule]

/-- Modelled from the spec: `findRuleByName(collection, name) -> RuleHandle | NotFound` of
the OS firewall policy service (`INetFwRules::Item`, not part of the repository): success
when a rule with the name is in the collection, the not-found code otherwise. -/
def policyItem (name : String) (rules : List FirewallRule) : HRESULT :=
  if rules.any (fun r => decide (r.name = some name)) then S_OK else E_FILE_NOT_FOUND

/-! ## `authorize` -/

/-- The local variables of `authorize`, the rule object under construction, the rule
collection of the OS, and the calls made so far. -/
structure State where
  success : Bool
  fwPolicy2 : Option Handle
  fwRule : Option Handle
  fwRules : Option Handle
  hr : HRESULT
  hrComInit : HRESULT
  bstrAppName : Option String
  /-- Properties of the object created by `CoCreateInstance(NetFwRule)`. -/
  newRule : FirewallRule
  /-- The rule collection held by the firewall policy service. -/
  policy : List FirewallRule
  trace : List Call
  deriving DecidableEq

/-- Record one external call. -/
@[simp] def State.call (s : State) (c : Call) : State := { s with trace := s.trace ++ [c] }

/-- Control after a step: fall through to the next statement, or `goto Cleanup`. -/
inductive Flow where
  | next (s : State)
  | gotoCleanup (s : State)

/-- Sequencing of statements: a `goto Cleanup` skips everything that follows. -/
@[simp] def Flow.andThen (f : Flow) (k : State → Flow) : Flow :=
  match f with
  | .next s => k s
  | .gotoCleanup s => .gotoCleanup s

/-- The state in which the `Cleanup:` label is reached. -/
@[simp] def Flow.state : Flow → State
  | .next s => s
  | .gotoCleanup s => s

/-- Lines 20-33: declarations, `SysAllocString`, and the null check. -/
@[simp] def stepAlloc (env : Env) (o : Outcomes) (rules : List FirewallRule) : Flow :=
  let s : State :=
    { success := false
      fwPolicy2 := none
      fwRule := none
      fwRules := none
      hr := S_OK
      hrComInit := S_FALSE
      bstrAppName := if o.bstrAllocated then some env.APPLICATION_SHORT_NAME else none
      newRule := ⟨none, none, none, none, none⟩
      policy := rules
      trace := [Call.SysAllocString env.APPLICATION_SHORT_NAME o.bstrAllocated] }
  if s.bstrAppName = none then
    .gotoCleanup (s.call (.qCritical ("Failed to allocate bstrAppName: " ++ toWinHex s.hr)))
  else .next s

/-- Lines 35-44: `CoInitializeEx`, ignoring `RPC_E_CHANGED_MODE`. -/
def stepCoInitialize (o : Outcomes) (s : State) : Flow :=
  let s := { s with hrComInit := o.hrCoInitializeEx }.call (.CoInitializeEx o.hrCoInitializeEx)
  if s.hrComInit ≠ RPC_E_CHANGED_MODE then
    if FAILED s.hrComInit then
      .gotoCleanup (s.call (.qCritical ("CoInitializeEx failed: " ++ toWinHex s.hrComInit)))
    else .next s
  else .next s

/-- Lines 46-52: `CoCreateInstance(NetFwPolicy2)`. -/
@[simp] def stepCreatePolicy2 (o : Outcomes) (s : State) : Flow :=
  let s := { s with
    hr := o.hrCreatePolicy2
    fwPolicy2 := if SUCCEEDED o.hrCreatePolicy2 then some Handle.fwPolicy2 else none }.call
      (.CoCreateInstance_NetFwPolicy2 o.hrCreatePolicy2)
  if FAILED s.hr then
    .gotoCleanup (s.call (.qCritical ("CoCreateInstance INetFwPolicy2 failed: " ++ toWinHex s.hr)))
  else .next s

/-- Lines 54-59: `fwPolicy2->get_Rules`. -/
@[simp] def stepGetRules (o : Outcomes) (s : State) : Flow :=
  let s := { s with
    hr := o.hrGetRules
    fwRules := if SUCCEEDED o.hrGetRules then some Handle.fwRules else s.fwRules }.call
      (.get_Rules o.hrGetRules)
  if FAILED s.hr then
    .gotoCleanup (s.call (.qCritical ("fwPolicy2->get_Rules failed: " ++ toWinHex s.hr)))
  else .next s

/-- Lines 61-75: `fwRules->Item`, and `fwRules->Remove` when the lookup succeeded. -/
@[simp] def stepItemRemove (env : Env) (o : Outcomes) (s : State) : Flow :=
  let s := { s with
    hr := o.hrItem
    fwRule := if SUCCEEDED o.hrItem then some Handle.foundRule else s.fwRule }.call
      (.Item env.APPLICATION_SHORT_NAME o.hrItem)
  if SUCCEEDED s.hr then
    let s := s.call (.qInfo "Rule already present in Windows Firewall, removing it")
    let s := { s with
      hr := o.hrRemove
      policy := if SUCCEEDED o.hrRemove then policyRemove env.APPLICATION_SHORT_NAME s.policy
                else s.policy }.call (.Remove env.APPLICATION_SHORT_NAME o.hrRemove)
    if FAILED s.hr then
      .gotoCleanup (s.call (.qCritical ("Cannot remove firewall rule: " ++ toWinHex s.hr)))
    else .next s
  else .next s

/-- Lines 77-86: `fwRule = nullptr;` and `CoCreateInstance(NetFwRule)`. -/
@[simp] def stepCreateRule (o : Outcomes) (s : State) : Flow :=
  let s := { s with fwRule := none }
  let s := { s with
    hr := o.hrCreateRule
    fwRule := if SUCCEEDED o.hrCreateRule then some Handle.newRule else none
    newRule := ⟨none, none, none, none, none⟩ }.call
      (.CoCreateInstance_NetFwRule o.hrCreateRule)
  if FAILED s.hr then
    .gotoCleanup (s.call (.qCritical ("CoCreateInstance INetFwRule failed: " ++ toWinHex s.hr)))
  else .next s

/-- Lines 88-93: `fwRule->put_Name(bstrAppName)`. -/
@[simp] def stepPutName (env : Env) (o : Outcomes) (s : State) : Flow :=
  let s := { s with
    hr := o.hrPutName
    newRule := if SUCCEEDED o.hrPutName
               then { s.newRule with name := some env.APPLICATION_SHORT_NAME }
               else s.newRule }.call (.put_Name env.APPLICATION_SHORT_NAME o.hrPutName)
  if FAILED s.hr then
    .gotoCleanup (s.call (.qCritical ("fwRules->put_Name failed: " ++ toWinHex s.hr)))
  else .next s

/-- Lines 95-99: `fwRule->put_ApplicationName(QDir::toNativeSeparators(appPath))`. -/
@[simp] def stepPutApplicationName (env : Env) (o : Outcomes) (s : State) : Flow :=
  let appPath := env.applicationFilePath
  let s := { s with
    hr := o.hrPutApplicationName
    newRule := if SUCCEEDED o.hrPutApplicationName
               then { s.newRule with applicationName := some (toNativeSeparators appPath) }
               else s.newRule }.call
      (.put_ApplicationName (toNativeSeparators appPath) o.hrPutApplicationName)
  if FAILED s.hr then
    .gotoCleanup (s.call (.qCritical ("fwRules->put_ApplicationName failed: " ++ toWinHex s.hr)))
  else .next s

/-- Lines 101-105: `fwRule->put_Action(NET_FW_ACTION_ALLOW)`. -/
@[simp] def stepPutAction (o : Outcomes) (s : State) : Flow :=
  let s := { s with
    hr := o.hrPutAction
    newRule := if SUCCEEDED o.hrPutAction
               then { s.newRule with action := some NET_FW_ACTION.NET_FW_ACTION_ALLOW }
               else s.newRule }.call (.put_Action NET_FW_ACTION.NET_FW_ACTION_ALLOW o.hrPutAction)
  if FAILED s.hr then
    .gotoCleanup (s.call (.qCritical ("fwRules->put_Action failed: " ++ toWinHex s.hr)))
  else .next s

/-- Lines 107-111: `fwRule->put_Enabled(VARIANT_TRUE)`. -/
@[simp] def stepPutEnabled (o : Outcomes) (s : State) : Flow :=
  let s := { s with
    hr := o.hrPutEnabled
    newRule := if SUCCEEDED o.hrPutEnabled then { s.newRule with enabled := some VARIANT_TRUE }
               else s.newRule }.call (.put_Enabled VARIANT_TRUE o.hrPutEnabled)
  if FAILED s.hr then
    .gotoCleanup (s.call (.qCritical ("fwRules->put_Enabled failed: " ++ toWinHex s.hr)))
  else .next s

/-- Lines 113-117: `fwRule->put_Direction(NET_FW_RULE_DIR_IN)`. -/
@[simp] def stepPutDirection (o : Outcomes) (s : State) : Flow :=
  let s := { s with
    hr := o.hrPutDirection
    newRule := if SUCCEEDED o.hrPutDirection
               then { s.newRule with direction := some NET_FW_RULE_DIRECTION.NET_FW_RULE_DIR_IN }
               else s.newRule }.call
      (.put_Direction NET_FW_RULE_DIRECTION.NET_FW_RULE_DIR_IN o.hrPutDirection)
  if FAILED s.hr then
    .gotoCleanup (s.call (.qCritical ("fwRules->put_Direction failed: " ++ toWinHex s.hr)))
  else .next s

/-- Lines 119-127: `fwRules->Add(fwRule)`, then `success = true`. -/
@[simp] def stepAdd (o : Outcomes) (s : State) : Flow :=
  let s := { s with
    hr := o.hrAdd
    policy := if SUCCEEDED o.hrAdd then policyAdd s.newRule s.policy else s.policy }.call
      (.Add s.newRule o.hrAdd)
  if FAILED s.hr then
    .gotoCleanup (s.call (.qCritical ("fwRules->Add failed: " ++ toWinHex s.hr)))
  else
    let s := { s with success := true }
    .next (s.call (.qInfo "Rule added to Windows Firewall"))

/-- Lines 129-149: the `Cleanup:` block. -/
def Cleanup (s : State) : State :=
  let s := s.call (.SysFreeString s.bstrAppName)
  let s := match s.fwRule with
    | some h => s.call (.Release h)
    | none => s
  let s := match s.fwRules with
    | some h => s.call (.Release h)
    | none => s
  let s := match s.fwPolicy2 with
    | some h => s.call (.Release h)
    | none => s
  let s := if SUCCEEDED s.hrComInit then s.call Call.CoUninitialize else s
  s

/-- Lines 20-127 of `authorize`: the statements before the `Cleanup:` label, in order. -/
def authorizeBody (env : Env) (o : Outcomes) (rules : List FirewallRule) : Flow :=
  stepAlloc env o rules
    |>.andThen (stepCoInitialize o)
    |>.andThen (stepCreatePolicy2 o)
    |>.andThen (stepGetRules o)
    |>.andThen (stepItemRemove env o)
    |>.andThen (stepCreateRule o)
    |>.andThen (stepPutName env o)
    |>.andThen (stepPutApplicationName env o)
    |>.andThen (stepPutAction o)
    |>.andThen (stepPutEnabled o)
    |>.andThen (stepPutDirection o)
    |>.andThen (stepAdd o)

/-- The function `WindowsFirewallHelper::authorize`: the state in which it returns; the
returned value is the field `success`. -/
def authorize (env : Env) (o : Outcomes) (rules : List FirewallRule) : State :=
  Cleanup (authorizeBody env o rules).state

/-! ## Vocabulary for the properties -/

/-- The calls made by the `Cleanup:` block from a given state, in order. -/
def cleanupCalls (s : State) : List Call :=
  [Call.SysFreeString s.bstrAppName] ++
  (match s.fwRule with
    | some h => [Call.Release h]
    | none => []) ++
  (match s.fwRules with
    | some h => [Call.Release h]
    | none => []) ++
  (match s.fwPolicy2 with
    | some h => [Call.Release h]
    | none => []) ++
  (if SUCCEEDED s.hrComInit then [Call.CoUninitialize] else [])

/-- The rule `authorize` builds: the identity as name, the native form of the executable
path, Allow, enabled, Inbound. -/
def builtRule (env : Env) : FirewallRule :=
  { name := some env.APPLICATION_SHORT_NAME
    applicationName := some (toNativeSeparators env.applicationFilePath)
    action := some NET_FW_ACTION.NET_FW_ACTION_ALLOW
    enabled := some VARIANT_TRUE
    direction := some NET_FW_RULE_DIRECTION.NET_FW_RULE_DIR_IN }

/-- The rules of a collection that carry a given name. -/
def rulesNamed (name : String) (rules : List FirewallRule) : List FirewallRule :=
  rules.filter (fun r => decide (r.name = some name))

/-- The handle a call hands to the caller, if any (COM hands out an owned reference with
every successful creation or lookup). -/
def Call.acquires : Call → Option Handle
  | .SysAllocString _ ok => if ok then some Handle.bstrAppName else none
  | .CoCreateInstance_NetFwPolicy2 hr => if SUCCEEDED hr then some Handle.fwPolicy2 else none
  | .get_Rules hr => if SUCCEEDED hr then some Handle.fwRules else none
  | .Item _ hr => if SUCCEEDED hr then some Handle.foundRule else none
  | .CoCreateInstance_NetFwRule hr => if SUCCEEDED hr then some Handle.newRule else none
  | _ => none

/-- The handle a call gives back, if any (`SysFreeString(NULL)` frees nothing). -/
def Call.releases : Call → Option Handle
  | .SysFreeString (some _) => some Handle.bstrAppName
  | .Release h => some h
  | _ => none

/-- The handles acquired along a sequence of calls, in order. -/
def acquired (t : List Call) : List Handle := t.filterMap Call.acquires

/-- The handles released along a sequence of calls, in order. -/
def released (t : List Call) : List Handle := t.filterMap Call.releases

/-- Calls of the cleanup block: `SysFreeString`, `Release`, `CoUninitialize`. -/
def Call.isRelease : Call → Bool
  | .SysFreeString _ => true
  | .Release _ => true
  | Call.CoUninitialize => true
  | _ => false

/-- Log output: `qCritical` and `qInfo`. -/
def Call.isLog : Call → Bool
  | .qCritical _ => true
  | .qInfo _ => true
  | _ => false

/-- Calls to the firewall policy service: creating the policy object, listing, lookup,
removal, creating a rule object, the five setters, and the final submit. -/
def Call.isPolicyCall : Call → Bool
  | .CoCreateInstance_NetFwPolicy2 _ => true
  | .get_Rules _ => true
  | .Item _ _ => true
  | .Remove _ _ => true
  | .CoCreateInstance_NetFwRule _ => true
  | .put_Name _ _ => true
  | .put_ApplicationName _ _ => true
  | .put_Action _ _ => true
  | .put_Enabled _ _ => true
  | .put_Direction _ _ => true
  | .Add _ _ => true
  | _ => false

/-- The steps of `authorize` that end it with a logged failure code when they fail, in
program order. -/
inductive Step where
  | createPolicy
  | getRules
  | remove
  | createRule
  | putName
  | putApplicationName
  | putAction
  | putEnabled
  | putDirection
  | add
  deriving DecidableEq

/-- The status code a step returns. -/
def Step.code (o : Outcomes) : Step → HRESULT
  | .createPolicy => o.hrCreatePolicy2
  | .getRules => o.hrGetRules
  | .remove => o.hrRemove
  | .createRule => o.hrCreateRule
  | .putName => o.hrPutName
  | .putApplicationName => o.hrPutApplicationName
  | .putAction => o.hrPutAction
  | .putEnabled => o.hrPutEnabled
  | .putDirection => o.hrPutDirection
  | .add => o.hrAdd

/-- The call a step makes. -/
def Step.call (env : Env) (o : Outcomes) : Step → Call
  | .createPolicy => .CoCreateInstance_NetFwPolicy2 o.hrCreatePolicy2
  | .getRules => .get_Rules o.hrGetRules
  | .remove => .Remove env.APPLICATION_SHORT_NAME o.hrRemove
  | .createRule => .CoCreateInstance_NetFwRule o.hrCreateRule
  | .putName => .put_Name env.APPLICATION_SHORT_NAME o.hrPutName
  | .putApplicationName =>
      .put_ApplicationName (toNativeSeparators env.applicationFilePath) o.hrPutApplicationName
  | .putAction => .put_Action NET_FW_ACTION.NET_FW_ACTION_ALLOW o.hrPutAction
  | .putEnabled => .put_Enabled VARIANT_TRUE o.hrPutEnabled
  | .putDirection => .put_Direction NET_FW_RULE_DIRECTION.NET_FW_RULE_DIR_IN o.hrPutDirection
  | .add => .Add (builtRule env) o.hrAdd

/-- The step a call belongs to, if it is the call of one of the steps. -/
def Call.step : Call → Option Step
  | .CoCreateInstance_NetFwPolicy2 _ => some .createPolicy
  | .get_Rules _ => some .getRules
  | .Remove _ _ => some .remove
  | .CoCreateInstance_NetFwRule _ => some .createRule
  | .put_Name _ _ => some .putName
  | .put_ApplicationName _ _ => some .putApplicationName
  | .put_Action _ _ => some .putAction
  | .put_Enabled _ _ => some .putEnabled
  | .put_Direction _ _ => some .putDirection
  | .Add _ _ => some .add
  | _ => none

/-- Position of a step in program order. -/
def Step.index : Step → Nat
  | .createPolicy => 0
  | .getRules => 1
  | .remove => 2
  | .createRule => 3
  | .putName => 4
  | .putApplicationName => 5
  | .putAction => 6
  | .putEnabled => 7
  | .putDirection => 8
  | .add => 9

/-- The identity string was allocated and `CoInitializeEx` did not fail
(`RPC_E_CHANGED_MODE` is ignored). -/
def Outcomes.initialised (o : Outcomes) : Prop :=
  o.bstrAllocated = true ∧
  (o.hrCoInitializeEx = RPC_E_CHANGED_MODE ∨ ¬ FAILED o.hrCoInitializeEx)

/-- The lookup is reached: initialisation, policy creation and `get_Rules` did not fail. -/
def Outcomes.reachesLookup (o : Outcomes) : Prop :=
  o.initialised ∧ ¬ FAILED o.hrCreatePolicy2 ∧ ¬ FAILED o.hrGetRules

/-- The creation of the new rule object is reached: the lookup is reached, and it either
failed or was followed by a successful `Remove`. -/
def Outcomes.reachesCreateRule (o : Outcomes) : Prop :=
  o.reachesLookup ∧ (¬ SUCCEEDED o.hrItem ∨ ¬ FAILED o.hrRemove)

/-- The step is executed and every step executed before it returned without failure. -/
def Step.reached (o : Outcomes) : Step → Prop
  | .createPolicy => o.initialised
  | .getRules => o.initialised ∧ ¬ FAILED o.hrCreatePolicy2
  | .remove => o.reachesLookup ∧ SUCCEEDED o.hrItem
  | .createRule => o.reachesCreateRule
  | .putName => o.reachesCreateRule ∧ ¬ FAILED o.hrCreateRule
  | .putApplicationName =>
      o.reachesCreateRule ∧ ¬ FAILED o.hrCreateRule ∧ ¬ FAILED o.hrPutName
  | .putAction =>
      o.reachesCreateRule ∧ ¬ FAILED o.hrCreateRule ∧ ¬ FAILED o.hrPutName ∧
      ¬ FAILED o.hrPutApplicationName
  | .putEnabled =>
      o.reachesCreateRule ∧ ¬ FAILED o.hrCreateRule ∧ ¬ FAILED o.hrPutName ∧
      ¬ FAILED o.hrPutApplicationName ∧ ¬ FAILED o.hrPutAction
  | .putDirection =>
      o.reachesCreateRule ∧ ¬ FAILED o.hrCreateRule ∧ ¬ FAILED o.hrPutName ∧
      ¬ FAILED o.hrPutApplicationName ∧ ¬ FAILED o.hrPutAction ∧ ¬ FAILED o.hrPutEnabled
  | .add =>
      o.reachesCreateRule ∧ ¬ FAILED o.hrCreateRule ∧ ¬ FAILED o.hrPutName ∧
      ¬ FAILED o.hrPutApplicationName ∧ ¬ FAILED o.hrPutAction ∧ ¬ FAILED o.hrPutEnabled ∧
      ¬ FAILED o.hrPutDirection

/-- No call other than the lookup fails. -/
def Outcomes.noFailure (o : Outcomes) : Prop :=
  o.initialised ∧ ¬ FAILED o.hrCreatePolicy2 ∧ ¬ FAILED o.hrGetRules ∧
  ¬ FAILED o.hrRemove ∧ ¬ FAILED o.hrCreateRule ∧ ¬ FAILED o.hrPutName ∧
  ¬ FAILED o.hrPutApplicationName ∧ ¬ FAILED o.hrPutAction ∧ ¬ FAILED o.hrPutEnabled ∧
  ¬ FAILED o.hrPutDirection ∧ ¬ FAILED o.hrAdd

instance (o : Outcomes) : Decidable o.initialised := by
  unfold Outcomes.initialised; infer_instance

instance (o : Outcomes) : Decidable o.reachesLookup := by
  unfold Outcomes.reachesLookup; infer_instance

instance (o : Outcomes) : Decidable o.reachesCreateRule := by
  unfold Outcomes.reachesCreateRule; infer_instance

instance (o : Outcomes) (k : Step) : Decidable (k.reached o) := by
  cases k <;> unfold Step.reached <;> infer_instance

instance (o : Outcomes) : Decidable o.noFailure := by
  unfold Outcomes.noFailure; infer_instance

/-- One run of `authorize` against the policy store: the lookup returns what the store
answers for the identity (`policyItem`); all other status codes are those of `o`. -/
def authorizeOn (env : Env) (o : Outcomes) (rules : List FirewallRule) : State :=
  authorize env { o with hrItem := policyItem env.APPLICATION_SHORT_NAME rules } rules

/-- Consecutive runs of `authorize`, one per element of `os`, each with its own status
codes (the one of the lookup included) and each starting from the collection the previous
one left: the results returned and the final collection. -/
def authorizeN (env : Env) : List Outcomes → List FirewallRule → List Bool × List FirewallRule
  | [], rules => ([], rules)
  | o :: os, rules =>
    let s := authorize env o rules
    let r := authorizeN env os s.policy
    (s.success :: r.1, r.2)

/-- The lookup of one run fails only if the collection holds no rule with the identity. -/
def lookupFailsOnlyIfAbsent (env : Env) (o : Outcomes) (rules : List FirewallRule) : Prop :=
  FAILED o.hrItem → ∀ r ∈ rules, r.name ≠ some env.APPLICATION_SHORT_NAME

instance (env : Env) (o : Outcomes) (rules : List FirewallRule) :
    Decidable (lookupFailsOnlyIfAbsent env o rules) := by
  unfold lookupFailsOnlyIfAbsent; infer_instance

/-- In each of the consecutive runs of `authorizeN`, the lookup fails only if the collection
that run starts from holds no rule with the identity. -/
def lookupsFailOnlyIfAbsent (env : Env) : List Outcomes → List FirewallRule → Prop
  | [], _ => True
  | o :: os, rules =>
    lookupFailsOnlyIfAbsent env o rules ∧
    lookupsFailOnlyIfAbsent env os (authorize env o rules).policy

/-- Deciding `lookupsFailOnlyIfAbsent`, run by run. -/
def decLookupsFailOnlyIfAbsent (env : Env) :
    (os : List Outcomes) → (rules : List FirewallRule) →
    Decidable (lookupsFailOnlyIfAbsent env os rules)
  | [], _ => isTrue trivial
  | o :: os, rules =>
    @instDecidableAnd _ _ inferInstance
      (decLookupsFailOnlyIfAbsent env os (authorize env o rules).policy)

instance (env : Env) (os : List Outcomes) (rules : List FirewallRule) :
    Decidable (lookupsFailOnlyIfAbsent env os rules) :=
  decLookupsFailOnlyIfAbsent env os rules

/-! ## Concrete inputs used in the examples -/

/-- Every call returns `S_OK`. -/
def allOk : Outcomes :=
  { bstrAllocated := true, hrCoInitializeEx := S_OK, hrCreatePolicy2 := S_OK, hrGetRules := S_OK,
    hrItem := S_OK, hrRemove := S_OK, hrCreateRule := S_OK, hrPutName := S_OK,
    hrPutApplicationName := S_OK, hrPutAction := S_OK, hrPutEnabled := S_OK,
    hrPutDirection := S_OK, hrAdd := S_OK }

/-- The lookup reports an error other than absence: access denied. -/
def lookupDenied : Outcomes := { allOk with hrItem := E_ACCESSDENIED }

/-- The lookup reports that no rule with the identity is stored. -/
def lookupNotFound : Outcomes := { allOk with hrItem := E_FILE_NOT_FOUND }

/-- The scenario of the specification: identity `MyApp`, executable
`C:/Program Files/MyApp/app.exe` (as Qt reports it, with `/` separators). -/
def myApp : Env :=
  { APPLICATION_SHORT_NAME := "MyApp"
    applicationFilePath := "C:/Program Files/MyApp/app.exe"
    currentPath := "C:/Users" }

/-- A rule named `MyApp` left by an earlier installation, pointing at an old path. -/
def staleRule : FirewallRule :=
  { name := some "MyApp"
    applicationName := some "C:\\Old\\app.exe"
    action := some NET_FW_ACTION.NET_FW_ACTION_ALLOW
    enabled := some true
    direction := some NET_FW_RULE_DIRECTION.NET_FW_RULE_DIR_IN }

/-- A rule of another application. -/
def otherRule : FirewallRule :=
  { name := some "Other"
    applicationName := some "C:\\Other\\other.exe"
    action := some NET_FW_ACTION.NET_FW_ACTION_BLOCK
    enabled := some false
    direction := some NET_FW_RULE_DIRECTION.NET_FW_RULE_DIR_OUT }

/-! ## Status-code facts -/

theorem SUCCEEDED_iff (hr : HRESULT) : SUCCEEDED hr ↔ ¬ FAILED hr := by
  unfold SUCCEEDED FAILED; exact not_lt.symm

theorem FAILED_RPC_E_CHANGED_MODE : FAILED RPC_E_CHANGED_MODE := by decide

theorem not_FAILED_S_FALSE : ¬ FAILED S_FALSE := by decide

theorem not_FAILED_S_OK : ¬ FAILED S_OK := by decide

theorem FAILED_E_FILE_NOT_FOUND : FAILED E_FILE_NOT_FOUND := by decide

/-! ## Hexadecimal formatting -/

theorem digitChar_upper : ∀ d < 16,
    hexDigitVal (digitChar d).toUpper = d ∧ isUpperHexDigit (digitChar d).toUpper := by
  decide

theorem qulltoa_zero (base : Nat) (acc : List Char) : qulltoa base 0 acc = acc := by
  rw [qulltoa]; simp

theorem qulltoa_succ (l : Nat) (acc : List Char) (h : l ≠ 0) :
    qulltoa 16 l acc = qulltoa 16 (l / 16) (digitChar (l % 16) :: acc) := by
  rw [qulltoa]; simp [h]

theorem qulltoa_acc (l : Nat) : ∀ acc : List Char, qulltoa 16 l acc = qulltoa 16 l [] ++ acc := by
  induction l using Nat.strong_induction_on with
  | _ l ih =>
    intro acc
    by_cases h : l = 0
    · subst h; simp [qulltoa_zero]
    · have hlt : l / 16 < l := Nat.div_lt_self (Nat.pos_of_ne_zero h) (by decide)
      rw [qulltoa_succ l acc h, qulltoa_succ l [] h, ih _ hlt (digitChar (l % 16) :: acc),
        ih _ hlt [digitChar (l % 16)]]
      simp

theorem qulltoa_snoc (l : Nat) (h : l ≠ 0) :
    qulltoa 16 l [] = qulltoa 16 (l / 16) [] ++ [digitChar (l % 16)] := by
  rw [qulltoa_succ l [] h, qulltoa_acc]

theorem qulltoa_ne_nil (l : Nat) (h : l ≠ 0) : qulltoa 16 l [] ≠ [] := by
  rw [qulltoa_snoc l h]; simp

theorem hexValue_snoc (ds : List Char) (c : Char) :
    hexValue (ds ++ [c]) = 16 * hexValue ds + hexDigitVal c := by
  simp [hexValue, List.foldl_append]

theorem hexValue_zeros (m : Nat) (ds : List Char) :
    hexValue (List.replicate m '0' ++ ds) = hexValue ds := by
  have key : ∀ (m : Nat),
      List.foldl (fun a c => 16 * a + hexDigitVal c) 0 (List.replicate m '0') = 0 := by
    intro m
    induction m with
    | zero => rfl
    | succ m ih =>
      rw [List.replicate_succ', List.foldl_append, ih]
      decide
  simp [hexValue, List.foldl_append, key]

/-- The digit loop on a value below `16 ^ k` writes at most `k` digits, all of which are
hexadecimal digits once upper-cased, and they spell the value. -/
theorem qulltoa_spec : ∀ (k l : Nat), l < 16 ^ k →
    (qulltoa 16 l []).length ≤ k ∧
    (∀ c ∈ toUpper (qulltoa 16 l []), isUpperHexDigit c) ∧
    hexValue (toUpper (qulltoa 16 l [])) = l := by
  intro k
  induction k with
  | zero =>
    intro l hl
    have h0 : l = 0 := by simpa using hl
    subst h0
    simp [qulltoa_zero, toUpper, hexValue]
  | succ k ih =>
    intro l hl
    by_cases h : l = 0
    · subst h
      simp [qulltoa_zero, toUpper, hexValue]
    · have hdiv : l / 16 < 16 ^ k := by
        rw [Nat.div_lt_iff_lt_mul (by decide)]
        rw [pow_succ] at hl
        exact hl
      obtain ⟨hlen, hdig, hval⟩ := ih (l / 16) hdiv
      have hmod : l % 16 < 16 := Nat.mod_lt _ (by decide)
      obtain ⟨hv, hd⟩ := digitChar_upper (l % 16) hmod
      rw [qulltoa_snoc l h]
      refine ⟨by simpa using hlen, ?_, ?_⟩
      · intro c hc
        simp only [toUpper, List.map_append, List.mem_append, List.map_cons, List.map_nil,
          List.mem_singleton] at hc
        rcases hc with hc | hc
        · exact hdig c hc
        · rw [hc]; exact hd
      · have hsplit : toUpper (qulltoa 16 (l / 16) [] ++ [digitChar (l % 16)])
            = toUpper (qulltoa 16 (l / 16) []) ++ [(digitChar (l % 16)).toUpper] := by
          simp [toUpper]
        rw [hsplit, hexValue_snoc, hval, hv]
        exact Nat.div_add_mod l 16

/-- The string `QString::number(n, 16).toUpper()` for a 32-bit `n`: at most eight
hexadecimal digits, and they spell `n`. -/
theorem number_spec (n : Nat) (hn : n < 4294967296) :
    (toUpper (QString_number n 16)).length ≤ 8 ∧
    (∀ c ∈ toUpper (QString_number n 16), isUpperHexDigit c) ∧
    hexValue (toUpper (QString_number n 16)) = n := by
  have h16 : n < 16 ^ 8 := by
    have : (16 : Nat) ^ 8 = 4294967296 := by norm_num
    omega
  obtain ⟨hlen, hdig, hval⟩ := qulltoa_spec 8 n h16
  by_cases h0 : n = 0
  · subst h0
    simp [QString_number, qulltoa_zero, toUpper, hexValue]
    decide
  · have hne : qulltoa 16 n [] ≠ [] := qulltoa_ne_nil n h0
    have hpos : 0 < (qulltoa 16 n []).length := List.length_pos.mpr hne
    have hrep : 1 - (qulltoa 16 n []).length = 0 := by omega
    have heq : QString_number n 16 = qulltoa 16 n [] := by
      simp [QString_number, hrep]
    rw [heq]
    refine ⟨?_, hdig, hval⟩
    simpa [toUpper] using hlen

theorem toULong_lt (v : HRESULT) : toULong v < 4294967296 := by
  unfold toULong
  have h : v % 4294967296 < 4294967296 := Int.emod_lt_of_pos v (by decide)
  have h0 : 0 ≤ v % 4294967296 := Int.emod_nonneg v (by decide)
  omega

/-- The digits after `0x`. -/
theorem toWinHex_data (v : HRESULT) :
    (toWinHex v).data = '0' :: 'x' :: argPad (toUpper (QString_number (toULong v) 16)) 8 '0' := by
  simp [toWinHex]

theorem toWinHex_digits (v : HRESULT) :
    (argPad (toUpper (QString_number (toULong v) 16)) 8 '0').length = 8 ∧
    (∀ c ∈ argPad (toUpper (QString_number (toULong v) 16)) 8 '0', isUpperHexDigit c) ∧
    hexValue (argPad (toUpper (QString_number (toULong v) 16)) 8 '0') = toULong v := by
  obtain ⟨hlen, hdig, hval⟩ := number_spec (toULong v) (toULong_lt v)
  have hpad : argPad (toUpper (QString_number (toULong v) 16)) 8 '0' =
      List.replicate (8 - (toUpper (QString_number (toULong v) 16)).length) '0' ++
        toUpper (QString_number (toULong v) 16) := by
    simp [argPad]
  rw [hpad]
  refine ⟨?_, ?_, ?_⟩
  · simp only [List.length_append, List.length_replicate]
    omega
  · intro c hc
    rw [List.mem_append] at hc
    rcases hc with hc | hc
    · have : c = '0' := List.eq_of_mem_replicate hc
      rw [this]; decide
    · exact hdig c hc
  · rw [hexValue_zeros, hval]

theorem toULong_inj (v w : Int) (hv : isInt32 v) (hw : isInt32 w)
    (h : toULong v = toULong w) : v = w := by
  unfold toULong at h
  unfold isInt32 at hv hw
  have h1 : 0 ≤ v % 4294967296 := Int.emod_nonneg v (by decide)
  have h2 : 0 ≤ w % 4294967296 := Int.emod_nonneg w (by decide)
  have h3 : v % 4294967296 = w % 4294967296 := by
    have := congrArg (fun n : Nat => (n : Int)) h
    simpa [Int.toNat_of_nonneg h1, Int.toNat_of_nonneg h2] using this
  omega

/-! ## Facts about the steps of `authorize` -/

theorem Cleanup_success (s : State) : (Cleanup s).success = s.success := by
  unfold Cleanup
  simp only [State.call]
  split <;> split <;> split <;> split <;> rfl

theorem Cleanup_policy (s : State) : (Cleanup s).policy = s.policy := by
  unfold Cleanup
  simp only [State.call]
  split <;> split <;> split <;> split <;> rfl

theorem stepCoInitialize_ok (o : Outcomes) (s : State)
    (h : o.hrCoInitializeEx = RPC_E_CHANGED_MODE ∨ ¬ FAILED o.hrCoInitializeEx) :
    stepCoInitialize o s =
      .next ({ s with hrComInit := o.hrCoInitializeEx }.call
        (.CoInitializeEx o.hrCoInitializeEx)) := by
  unfold stepCoInitialize
  rcases h with h | h
  · simp [h]
  · simp [h]

theorem stepCoInitialize_failed (o : Outcomes) (s : State)
    (h : ¬ (o.hrCoInitializeEx = RPC_E_CHANGED_MODE ∨ ¬ FAILED o.hrCoInitializeEx)) :
    stepCoInitialize o s =
      .gotoCleanup (({ s with hrComInit := o.hrCoInitializeEx }.call
        (.CoInitializeEx o.hrCoInitializeEx)).call
          (.qCritical ("CoInitializeEx failed: " ++ toWinHex o.hrCoInitializeEx))) := by
  unfold stepCoInitialize
  have h2a : ¬ o.hrCoInitializeEx = RPC_E_CHANGED_MODE := fun e => h (Or.inl e)
  have h2b : FAILED o.hrCoInitializeEx := by
    by_contra hc
    exact h (Or.inr hc)
  simp [h2a, h2b]

theorem Cleanup_trace (s : State) : (Cleanup s).trace = s.trace ++ cleanupCalls s := by
  obtain ⟨su, p2, r, rs, hr, hci, b, nr, pol, tr⟩ := s
  cases r <;> cases rs <;> cases p2 <;> by_cases h : SUCCEEDED hci <;>
    simp [Cleanup, cleanupCalls, h]

theorem cleanupCalls_isRelease (s : State) : ∀ c ∈ cleanupCalls s, c.isRelease = true := by
  intro c hc
  unfold cleanupCalls at hc
  simp only [List.mem_append, List.mem_singleton] at hc
  rcases hc with (((hc | hc) | hc) | hc) | hc
  · rw [hc]; rfl
  · split at hc
    · rw [List.mem_singleton.mp hc]; rfl
    · simp at hc
  · split at hc
    · rw [List.mem_singleton.mp hc]; rfl
    · simp at hc
  · split at hc
    · rw [List.mem_singleton.mp hc]; rfl
    · simp at hc
  · split at hc
    · rw [List.mem_singleton.mp hc]; rfl
    · simp at hc

/-- The calls of `authorize` are those of its body followed by those of `Cleanup`. -/
theorem authorize_trace (env : Env) (o : Outcomes) (rules : List FirewallRule) :
    (authorize env o rules).trace =
      (authorizeBody env o rules).state.trace ++
        cleanupCalls (authorizeBody env o rules).state := by
  rw [authorize, Cleanup_trace]

theorem authorize_success (env : Env) (o : Outcomes) (rules : List FirewallRule) :
    (authorize env o rules).success = (authorizeBody env o rules).state.success := by
  rw [authorize, Cleanup_success]

theorem authorize_policy (env : Env) (o : Outcomes) (rules : List FirewallRule) :
    (authorize env o rules).policy = (authorizeBody env o rules).state.policy := by
  rw [authorize, Cleanup_policy]

theorem not_mem_cleanupCalls (s : State) (c : Call) (hc : c.isRelease = false) :
    c ∉ cleanupCalls s := by
  intro h
  have := cleanupCalls_isRelease s c h
  rw [hc] at this
  exact Bool.false_ne_true this

/-- Whatever the outcomes, the only path handed to `put_ApplicationName` is the native form
of the executable path, and the only rule handed to `Add` is the rule built from it. -/
theorem body_arguments (env : Env) (o : Outcomes) (rules : List FirewallRule) :
    (∀ path hr, Call.put_ApplicationName path hr ∈ (authorizeBody env o rules).state.trace →
      path = toNativeSeparators env.applicationFilePath) ∧
    (∀ r hr, Call.Add r hr ∈ (authorizeBody env o rules).state.trace → r = builtRule env) := by
  rw [authorizeBody]
  by_cases h1 : o.bstrAllocated = true
  swap
  · simp [*, stepCoInitialize_ok, stepCoInitialize_failed, SUCCEEDED_iff, builtRule]
  by_cases h2 : o.hrCoInitializeEx = RPC_E_CHANGED_MODE ∨ ¬ FAILED o.hrCoInitializeEx
  swap
  · simp [*, stepCoInitialize_ok, stepCoInitialize_failed, SUCCEEDED_iff, builtRule]
  by_cases h3 : FAILED o.hrCreatePolicy2
  · simp [*, stepCoInitialize_ok, stepCoInitialize_failed, SUCCEEDED_iff, builtRule]
  by_cases h4 : FAILED o.hrGetRules
  · simp [*, stepCoInitialize_ok, stepCoInitialize_failed, SUCCEEDED_iff, builtRule]
  by_cases h5 : FAILED o.hrItem <;> by_cases h6 : FAILED o.hrRemove
  rotate_left 2
  · simp [*, stepCoInitialize_ok, stepCoInitialize_failed, SUCCEEDED_iff, builtRule]
  all_goals
    (by_cases h7 : FAILED o.hrCreateRule
     · simp [*, stepCoInitialize_ok, stepCoInitialize_failed, SUCCEEDED_iff, builtRule])
  all_goals
    (by_cases h8 : FAILED o.hrPutName
     · simp [*, stepCoInitialize_ok, stepCoInitialize_failed, SUCCEEDED_iff, builtRule])
  all_goals
    (by_cases h9 : FAILED o.hrPutApplicationName
     · simp [*, stepCoInitialize_ok, stepCoInitialize_failed, SUCCEEDED_iff, builtRule])
  all_goals
    (by_cases h10 : FAILED o.hrPutAction
     · simp [*, stepCoInitialize_ok, stepCoInitialize_failed, SUCCEEDED_iff, builtRule])
  all_goals
    (by_cases h11 : FAILED o.hrPutEnabled
     · simp [*, stepCoInitialize_ok, stepCoInitialize_failed, SUCCEEDED_iff, builtRule])
  all_goals
    (by_cases h12 : FAILED o.hrPutDirection
     · simp [*, stepCoInitialize_ok, stepCoInitialize_failed, SUCCEEDED_iff, builtRule])
  all_goals
    (by_cases h13 : FAILED o.hrAdd
     · simp [*, stepCoInitialize_ok, stepCoInitialize_failed, SUCCEEDED_iff, builtRule])
  all_goals simp [*, stepCoInitialize_ok, stepCoInitialize_failed, SUCCEEDED_iff, builtRule]

/-- The result is `true` exactly when no executed step fails. -/
theorem authorize_success_iff (env : Env) (o : Outcomes) (rules : List FirewallRule) :
    (authorize env o rules).success = true ↔
      (o.bstrAllocated = true ∧
       (o.hrCoInitializeEx = RPC_E_CHANGED_MODE ∨ ¬ FAILED o.hrCoInitializeEx) ∧
       ¬ FAILED o.hrCreatePolicy2 ∧
       ¬ FAILED o.hrGetRules ∧
       (FAILED o.hrItem ∨ ¬ FAILED o.hrRemove) ∧
       ¬ FAILED o.hrCreateRule ∧
       ¬ FAILED o.hrPutName ∧
       ¬ FAILED o.hrPutApplicationName ∧
       ¬ FAILED o.hrPutAction ∧
       ¬ FAILED o.hrPutEnabled ∧
       ¬ FAILED o.hrPutDirection ∧
       ¬ FAILED o.hrAdd) := by
  rw [authorize_success, authorizeBody]
  by_cases h1 : o.bstrAllocated = true
  swap
  · simp [*, stepCoInitialize_ok, stepCoInitialize_failed, SUCCEEDED_iff]
  by_cases h2 : o.hrCoInitializeEx = RPC_E_CHANGED_MODE ∨ ¬ FAILED o.hrCoInitializeEx
  swap
  · simp [*, stepCoInitialize_ok, stepCoInitialize_failed, SUCCEEDED_iff]
  by_cases h3 : FAILED o.hrCreatePolicy2
  · simp [*, stepCoInitialize_ok, stepCoInitialize_failed, SUCCEEDED_iff]
  by_cases h4 : FAILED o.hrGetRules
  · simp [*, stepCoInitialize_ok, stepCoInitialize_failed, SUCCEEDED_iff]
  by_cases h5 : FAILED o.hrItem <;> by_cases h6 : FAILED o.hrRemove
  rotate_left 2
  · simp [*, stepCoInitialize_ok, stepCoInitialize_failed, SUCCEEDED_iff]
  all_goals
    (by_cases h7 : FAILED o.hrCreateRule
     · simp [*, stepCoInitialize_ok, stepCoInitialize_failed, SUCCEEDED_iff])
  all_goals
    (by_cases h8 : FAILED o.hrPutName
     · simp [*, stepCoInitialize_ok, stepCoInitialize_failed, SUCCEEDED_iff])
  all_goals
    (by_cases h9 : FAILED o.hrPutApplicationName
     · simp [*, stepCoInitialize_ok, stepCoInitialize_failed, SUCCEEDED_iff])
  all_goals
    (by_cases h10 : FAILED o.hrPutAction
     · simp [*, stepCoInitialize_ok, stepCoInitialize_failed, SUCCEEDED_iff])
  all_goals
    (by_cases h11 : FAILED o.hrPutEnabled
     · simp [*, stepCoInitialize_ok, stepCoInitialize_failed, SUCCEEDED_iff])
  all_goals
    (by_cases h12 : FAILED o.hrPutDirection
     · simp [*, stepCoInitialize_ok, stepCoInitialize_failed, SUCCEEDED_iff])
  all_goals
    (by_cases h13 : FAILED o.hrAdd
     · simp [*, stepCoInitialize_ok, stepCoInitialize_failed, SUCCEEDED_iff])
  all_goals simp [*, stepCoInitialize_ok, stepCoInitialize_failed, SUCCEEDED_iff]

/-- The collection left by a successful run: the built rule is added to the initial
collection, from which the rules carrying the identity were removed when the lookup
succeeded. -/
theorem authorize_policy_of_success (env : Env) (o : Outcomes) (rules : List FirewallRule)
    (h : (authorize env o rules).success = true) :
    (authorize env o rules).policy =
      policyAdd (builtRule env)
        (if FAILED o.hrItem then rules else policyRemove env.APPLICATION_SHORT_NAME rules) := by
  obtain ⟨h1, h2, h3, h4, h56, h7, h8, h9, h10, h11, h12, h13⟩ :=
    (authorize_success_iff env o rules).mp h
  rw [authorize_policy, authorizeBody]
  by_cases h5 : FAILED o.hrItem
  · simp [*, stepCoInitialize_ok, SUCCEEDED_iff, builtRule]
  · have h6 : ¬ FAILED o.hrRemove := h56.resolve_left h5
    simp [*, stepCoInitialize_ok, SUCCEEDED_iff, builtRule]

/-! ## Facts about the policy store -/

theorem rulesNamed_policyRemove (name : String) (rules : List FirewallRule) :
    rulesNamed name (policyRemove name rules) = [] := by
  simp [rulesNamed, policyRemove, List.filter_filter]

theorem policyItem_failed_iff (name : String) (rules : List FirewallRule) :
    FAILED (policyItem name rules) ↔ ∀ r ∈ rules, r.name ≠ some name := by
  unfold policyItem
  by_cases h : (rules.any fun r => decide (r.name = some name)) = true
  · rw [if_pos h]
    simp only [not_FAILED_S_OK, false_iff]
    intro hall
    rw [List.any_eq_true] at h
    obtain ⟨r, hr, hn⟩ := h
    exact hall r hr (by simpa using hn)
  · rw [if_neg h]
    simp only [FAILED_E_FILE_NOT_FOUND, true_iff]
    intro r hr hn
    apply h
    rw [List.any_eq_true]
    exact ⟨r, hr, by simpa using hn⟩

theorem policyRemove_of_absent (name : String) (rules : List FirewallRule)
    (h : ∀ r ∈ rules, r.name ≠ some name) : policyRemove name rules = rules := by
  unfold policyRemove
  rw [List.filter_eq_self]
  intro r hr
  simpa using h r hr

theorem policyRemove_policyAdd_builtRule (env : Env) (rules : List FirewallRule) :
    policyRemove env.APPLICATION_SHORT_NAME (policyAdd (builtRule env) rules) =
      policyRemove env.APPLICATION_SHORT_NAME rules := by
  simp [policyRemove, policyAdd, builtRule, List.filter_append]

theorem policyRemove_idem (name : String) (rules : List FirewallRule) :
    policyRemove name (policyRemove name rules) = policyRemove name rules := by
  simp [policyRemove, List.filter_filter]

theorem rulesNamed_policyAdd_builtRule (env : Env) (rules : List FirewallRule) :
    rulesNamed env.APPLICATION_SHORT_NAME (policyAdd (builtRule env) rules) =
      rulesNamed env.APPLICATION_SHORT_NAME rules ++ [builtRule env] := by
  simp [rulesNamed, policyAdd, builtRule, List.filter_append]

/-- Against the policy store, a successful run leaves the other rules in place and exactly
the built rule under the identity. -/
theorem authorizeOn_policy (env : Env) (o : Outcomes) (rules : List FirewallRule)
    (h : (authorizeOn env o rules).success = true) :
    (authorizeOn env o rules).policy =
      policyAdd (builtRule env) (policyRemove env.APPLICATION_SHORT_NAME rules) := by
  unfold authorizeOn at h ⊢
  rw [authorize_policy_of_success env _ rules h]
  by_cases hf : FAILED (policyItem env.APPLICATION_SHORT_NAME rules)
  · rw [if_pos hf, policyRemove_of_absent _ _ ((policyItem_failed_iff _ _).mp hf)]
  · rw [if_neg hf]

theorem authorizeOn_success (env : Env) (o : Outcomes) (rules : List FirewallRule)
    (h : o.noFailure) : (authorizeOn env o rules).success = true := by
  unfold Outcomes.noFailure Outcomes.initialised at h
  obtain ⟨⟨h1, h2⟩, h3, h4, h6, h7, h8, h9, h10, h11, h12, h13⟩ := h
  unfold authorizeOn
  rw [authorize_success_iff]
  exact ⟨h1, h2, h3, h4, Or.inr h6, h7, h8, h9, h10, h11, h12, h13⟩

theorem rulesNamed_after_success (env : Env) (o : Outcomes) (rules : List FirewallRule)
    (h : (authorizeOn env o rules).success = true) :
    rulesNamed env.APPLICATION_SHORT_NAME (authorizeOn env o rules).policy = [builtRule env] := by
  rw [authorizeOn_policy env o rules h, rulesNamed_policyAdd_builtRule, rulesNamed_policyRemove]
  rfl

/-- A run that returns `true` and whose lookup failed only on absence leaves exactly the
built rule under the identity. -/
theorem rulesNamed_after_true (env : Env) (o : Outcomes) (rules : List FirewallRule)
    (hs : (authorize env o rules).success = true)
    (hl : lookupFailsOnlyIfAbsent env o rules) :
    rulesNamed env.APPLICATION_SHORT_NAME (authorize env o rules).policy = [builtRule env] := by
  rw [authorize_policy_of_success env o rules hs, rulesNamed_policyAdd_builtRule]
  by_cases hf : FAILED o.hrItem
  · rw [if_pos hf, ← policyRemove_of_absent _ _ (hl hf), rulesNamed_policyRemove]
    rfl
  · rw [if_neg hf, rulesNamed_policyRemove]
    rfl

theorem authorizeN_named (env : Env) : ∀ (os : List Outcomes) (rules : List FirewallRule),
    os ≠ [] → lookupsFailOnlyIfAbsent env os rules →
    (∀ b ∈ (authorizeN env os rules).1, b = true) →
    rulesNamed env.APPLICATION_SHORT_NAME (authorizeN env os rules).2 = [builtRule env] := by
  intro os
  induction os with
  | nil => intro rules hne; exact absurd rfl hne
  | cons o os ih =>
    intro rules _ hlook hall
    have hfirst : (authorize env o rules).success = true :=
      hall _ (by simp [authorizeN])
    cases os with
    | nil => simpa [authorizeN] using rulesNamed_after_true env o rules hfirst hlook.1
    | cons o2 os2 =>
      have hrest : ∀ b ∈ (authorizeN env (o2 :: os2) (authorize env o rules).policy).1,
          b = true := by
        intro b hb
        apply hall
        simp only [authorizeN, List.mem_cons] at hb ⊢
        exact Or.inr hb
      have := ih (authorize env o rules).policy (by simp) hlook.2 hrest
      simpa [authorizeN] using this

/-- On a collection with at most one rule of a name, removing every rule of that name is
removing the first one: for such collections the result of `Remove` does not depend on
whether the policy service deletes one rule or all rules of the name. -/
theorem policyRemove_eq_eraseP (name : String) (rules : List FirewallRule)
    (h : (rulesNamed name rules).length ≤ 1) :
    policyRemove name rules = rules.eraseP (fun r => decide (r.name = some name)) := by
  induction rules with
  | nil => rfl
  | cons r rs ih =>
    by_cases hr : r.name = some name
    · have hrs : ∀ x ∈ rs, x.name ≠ some name := by
        intro x hx hxn
        have hmem : x ∈ rulesNamed name rs := by
          simp [rulesNamed, List.mem_filter, hx, hxn]
        have hpos : 0 < (rulesNamed name rs).length := List.length_pos_of_mem hmem
        have hlen : (rulesNamed name (r :: rs)).length = (rulesNamed name rs).length + 1 := by
          simp [rulesNamed, hr]
        omega
      have hkeep := policyRemove_of_absent name rs hrs
      simp [policyRemove, hr] at hkeep ⊢
      exact hkeep
    · have h2 : (rulesNamed name rs).length ≤ 1 := by
        have hlen : rulesNamed name (r :: rs) = rulesNamed name rs := by
          simp [rulesNamed, hr]
        rw [hlen] at h
        exact h
      have := ih h2
      simp [policyRemove, hr] at this ⊢
      exact this

/-- A `Remove` call can only come from the branch taken after a successful lookup: the
lookup was reached and succeeded, and the call carries the identity and the status code of
the removal. -/
theorem remove_mem_body (env : Env) (o : Outcomes) (rules : List FirewallRule) (n : String)
    (hr : HRESULT) (hmem : Call.Remove n hr ∈ (authorizeBody env o rules).state.trace) :
    o.reachesLookup ∧ ¬ FAILED o.hrItem ∧ n = env.APPLICATION_SHORT_NAME ∧ hr = o.hrRemove := by
  revert hmem
  rw [authorizeBody]
  by_cases h1 : o.bstrAllocated = true
  swap
  · simp [*, stepCoInitialize_ok, stepCoInitialize_failed, SUCCEEDED_iff, Outcomes.reachesLookup,
      Outcomes.initialised]
  by_cases h2 : o.hrCoInitializeEx = RPC_E_CHANGED_MODE ∨ ¬ FAILED o.hrCoInitializeEx
  swap
  · simp [*, stepCoInitialize_ok, stepCoInitialize_failed, SUCCEEDED_iff, Outcomes.reachesLookup,
      Outcomes.initialised]
  by_cases h3 : FAILED o.hrCreatePolicy2
  · simp [*, stepCoInitialize_ok, stepCoInitialize_failed, SUCCEEDED_iff, Outcomes.reachesLookup,
      Outcomes.initialised]
  by_cases h4 : FAILED o.hrGetRules
  · simp [*, stepCoInitialize_ok, stepCoInitialize_failed, SUCCEEDED_iff, Outcomes.reachesLookup,
      Outcomes.initialised]
  by_cases h5 : FAILED o.hrItem <;> by_cases h6 : FAILED o.hrRemove
  rotate_left 2
  · simp [*, stepCoInitialize_ok, stepCoInitialize_failed, SUCCEEDED_iff, Outcomes.reachesLookup,
      Outcomes.initialised]
  all_goals
    (by_cases h7 : FAILED o.hrCreateRule
     · simp [*, stepCoInitialize_ok, stepCoInitialize_failed, SUCCEEDED_iff, Outcomes.reachesLookup,
         Outcomes.initialised])
  all_goals
    (by_cases h8 : FAILED o.hrPutName
     · simp [*, stepCoInitialize_ok, stepCoInitialize_failed, SUCCEEDED_iff, Outcomes.reachesLookup,
         Outcomes.initialised])
  all_goals
    (by_cases h9 : FAILED o.hrPutApplicationName
     · simp [*, stepCoInitialize_ok, stepCoInitialize_failed, SUCCEEDED_iff, Outcomes.reachesLookup,
         Outcomes.initialised])
  all_goals
    (by_cases h10 : FAILED o.hrPutAction
     · simp [*, stepCoInitialize_ok, stepCoInitialize_failed, SUCCEEDED_iff, Outcomes.reachesLookup,
         Outcomes.initialised])
  all_goals
    (by_cases h11 : FAILED o.hrPutEnabled
     · simp [*, stepCoInitialize_ok, stepCoInitialize_failed, SUCCEEDED_iff, Outcomes.reachesLookup,
         Outcomes.initialised])
  all_goals
    (by_cases h12 : FAILED o.hrPutDirection
     · simp [*, stepCoInitialize_ok, stepCoInitialize_failed, SUCCEEDED_iff, Outcomes.reachesLookup,
         Outcomes.initialised])
  all_goals
    (by_cases h13 : FAILED o.hrAdd
     · simp [*, stepCoInitialize_ok, stepCoInitialize_failed, SUCCEEDED_iff, Outcomes.reachesLookup,
         Outcomes.initialised])
  all_goals simp [*, stepCoInitialize_ok, stepCoInitialize_failed, SUCCEEDED_iff,
              Outcomes.reachesLookup, Outcomes.initialised]

/-- After a successful lookup the calls start with the four calls that lead to it, the
lookup, the log line, and the removal. -/
theorem trace_of_found (env : Env) (o : Outcomes) (rules : List FirewallRule)
    (hreach : o.reachesLookup) (h5 : ¬ FAILED o.hrItem) :
    ∃ post, (authorize env o rules).trace =
      [Call.SysAllocString env.APPLICATION_SHORT_NAME o.bstrAllocated,
        Call.CoInitializeEx o.hrCoInitializeEx,
        Call.CoCreateInstance_NetFwPolicy2 o.hrCreatePolicy2,
        Call.get_Rules o.hrGetRules] ++
      Call.Item env.APPLICATION_SHORT_NAME o.hrItem ::
        Call.qInfo "Rule already present in Windows Firewall, removing it" ::
        Call.Remove env.APPLICATION_SHORT_NAME o.hrRemove :: post := by
  obtain ⟨⟨h1, h2⟩, h3, h4⟩ := hreach
  refine ⟨List.drop 7 (authorize env o rules).trace, ?_⟩
  by_cases h6 : FAILED o.hrRemove
  · simp [*, stepCoInitialize_ok, SUCCEEDED_iff, authorize_trace, authorizeBody]
  by_cases h7 : FAILED o.hrCreateRule
  · simp [*, stepCoInitialize_ok, SUCCEEDED_iff, authorize_trace, authorizeBody]
  by_cases h8 : FAILED o.hrPutName
  · simp [*, stepCoInitialize_ok, SUCCEEDED_iff, authorize_trace, authorizeBody]
  by_cases h9 : FAILED o.hrPutApplicationName
  · simp [*, stepCoInitialize_ok, SUCCEEDED_iff, authorize_trace, authorizeBody]
  by_cases h10 : FAILED o.hrPutAction
  · simp [*, stepCoInitialize_ok, SUCCEEDED_iff, authorize_trace, authorizeBody]
  by_cases h11 : FAILED o.hrPutEnabled
  · simp [*, stepCoInitialize_ok, SUCCEEDED_iff, authorize_trace, authorizeBody]
  by_cases h12 : FAILED o.hrPutDirection
  · simp [*, stepCoInitialize_ok, SUCCEEDED_iff, authorize_trace, authorizeBody]
  by_cases h13 : FAILED o.hrAdd
  · simp [*, stepCoInitialize_ok, SUCCEEDED_iff, authorize_trace, authorizeBody]
  simp [*, stepCoInitialize_ok, SUCCEEDED_iff, authorize_trace, authorizeBody]

theorem remove_after_lookup (env : Env) (o : Outcomes) (rules : List FirewallRule)
    (n : String) (hr : HRESULT)
    (hmem : Call.Remove n hr ∈ (authorize env o rules).trace) :
    ¬ FAILED o.hrItem ∧ n = env.APPLICATION_SHORT_NAME ∧ hr = o.hrRemove ∧
    ∃ pre post, (authorize env o rules).trace =
      pre ++ Call.Item env.APPLICATION_SHORT_NAME o.hrItem ::
        Call.qInfo "Rule already present in Windows Firewall, removing it" ::
        Call.Remove n hr :: post := by
  rw [authorize_trace, List.mem_append] at hmem
  obtain ⟨hreach, h5, hn, hhr⟩ := remove_mem_body env o rules n hr
    (hmem.resolve_right (not_mem_cleanupCalls _ _ rfl))
  obtain ⟨post, hpost⟩ := trace_of_found env o rules hreach h5
  subst hn hhr
  exact ⟨h5, rfl, rfl, _, post, hpost⟩

/-! ## Handles -/

theorem acquired_append (a b : List Call) : acquired (a ++ b) = acquired a ++ acquired b := by
  simp [acquired, List.filterMap_append]

theorem released_append (a b : List Call) : released (a ++ b) = released a ++ released b := by
  simp [released, List.filterMap_append]

theorem acquired_cleanupCalls (s : State) : acquired (cleanupCalls s) = [] := by
  obtain ⟨su, p2, r, rs, hr, hci, b, nr, pol, tr⟩ := s
  cases r <;> cases rs <;> cases p2 <;> by_cases hc : SUCCEEDED hci <;>
    simp [cleanupCalls, acquired, Call.acquires, hc]

/-- What `Cleanup` releases: the identity string if it was allocated, and whatever the
three interface pointers hold at that moment. -/
theorem released_cleanupCalls (s : State) :
    released (cleanupCalls s) =
      (match s.bstrAppName with
        | some _ => [Handle.bstrAppName]
        | none => []) ++ s.fwRule.toList ++ s.fwRules.toList ++ s.fwPolicy2.toList := by
  obtain ⟨su, p2, r, rs, hr, hci, b, nr, pol, tr⟩ := s
  cases r <;> cases rs <;> cases p2 <;> cases b <;> by_cases hc : SUCCEEDED hci <;>
    simp [cleanupCalls, released, Call.releases, hc]

theorem count_CoUninitialize_cleanupCalls (s : State) :
    (cleanupCalls s).count Call.CoUninitialize = if SUCCEEDED s.hrComInit then 1 else 0 := by
  obtain ⟨su, p2, r, rs, hr, hci, b, nr, pol, tr⟩ := s
  cases r <;> cases rs <;> cases p2 <;> by_cases hc : SUCCEEDED hci <;>
    simp [cleanupCalls, hc, List.count_cons]

set_option maxHeartbeats 4000000 in
/-- Every handle other than the one returned by the lookup is released as often as it is
acquired, on every run. -/
theorem handles_balanced_except_found (env : Env) (o : Outcomes) (rules : List FirewallRule)
    (h : Handle) (hh : h ≠ Handle.foundRule) :
    (released (authorize env o rules).trace).count h =
      (acquired (authorize env o rules).trace).count h := by
  rw [authorize_trace, released_append, acquired_append, released_cleanupCalls,
    acquired_cleanupCalls, authorizeBody]
  cases h
  case foundRule => exact absurd rfl hh
  all_goals clear hh
  all_goals
    (by_cases h1 : o.bstrAllocated = true
     swap
     · simp [*, stepCoInitialize_ok, stepCoInitialize_failed, SUCCEEDED_iff, acquired, released,
         Call.acquires, Call.releases])
  all_goals
    (by_cases h2 : o.hrCoInitializeEx = RPC_E_CHANGED_MODE ∨ ¬ FAILED o.hrCoInitializeEx
     swap
     · simp [*, stepCoInitialize_ok, stepCoInitialize_failed, SUCCEEDED_iff, acquired, released,
         Call.acquires, Call.releases])
  all_goals
    (by_cases h3 : FAILED o.hrCreatePolicy2
     · simp [*, stepCoInitialize_ok, stepCoInitialize_failed, SUCCEEDED_iff, acquired, released,
         Call.acquires, Call.releases])
  all_goals
    (by_cases h4 : FAILED o.hrGetRules
     · simp [*, stepCoInitialize_ok, stepCoInitialize_failed, SUCCEEDED_iff, acquired, released,
         Call.acquires, Call.releases])
  all_goals (by_cases h5 : FAILED o.hrItem)
  all_goals (by_cases h6 : FAILED o.hrRemove)
  all_goals (by_cases h7 : FAILED o.hrCreateRule)
  all_goals (try (simp [*, stepCoInitialize_ok, stepCoInitialize_failed, SUCCEEDED_iff, acquired,
      released, Call.acquires, Call.releases]; done))
  all_goals
    (by_cases h8 : FAILED o.hrPutName
     · simp [*, stepCoInitialize_ok, stepCoInitialize_failed, SUCCEEDED_iff, acquired, released,
         Call.acquires, Call.releases])
  all_goals
    (by_cases h9 : FAILED o.hrPutApplicationName
     · simp [*, stepCoInitialize_ok, stepCoInitialize_failed, SUCCEEDED_iff, acquired, released,
         Call.acquires, Call.releases])
  all_goals
    (by_cases h10 : FAILED o.hrPutAction
     · simp [*, stepCoInitialize_ok, stepCoInitialize_failed, SUCCEEDED_iff, acquired, released,
         Call.acquires, Call.releases])
  all_goals
    (by_cases h11 : FAILED o.hrPutEnabled
     · simp [*, stepCoInitialize_ok, stepCoInitialize_failed, SUCCEEDED_iff, acquired, released,
         Call.acquires, Call.releases])
  all_goals
    (by_cases h12 : FAILED o.hrPutDirection
     · simp [*, stepCoInitialize_ok, stepCoInitialize_failed, SUCCEEDED_iff, acquired, released,
         Call.acquires, Call.releases])
  all_goals
    (by_cases h13 : FAILED o.hrAdd
     · simp [*, stepCoInitialize_ok, stepCoInitialize_failed, SUCCEEDED_iff, acquired, released,
         Call.acquires, Call.releases])
  all_goals simp [*, stepCoInitialize_ok, stepCoInitialize_failed, SUCCEEDED_iff, acquired,
      released, Call.acquires, Call.releases]

/-- After a successful lookup and removal, a failure of any later step leaves the
collection as the removal left it. -/
theorem policy_after_failed_replacement (env : Env) (o : Outcomes) (rules : List FirewallRule)
    (hreach : o.reachesLookup) (h5 : ¬ FAILED o.hrItem) (h6 : ¬ FAILED o.hrRemove)
    (hlater : FAILED o.hrCreateRule ∨ FAILED o.hrPutName ∨ FAILED o.hrPutApplicationName ∨
      FAILED o.hrPutAction ∨ FAILED o.hrPutEnabled ∨ FAILED o.hrPutDirection ∨ FAILED o.hrAdd) :
    (authorize env o rules).success = false ∧
    (authorize env o rules).policy = policyRemove env.APPLICATION_SHORT_NAME rules ∧
    Call.Remove env.APPLICATION_SHORT_NAME o.hrRemove ∈ (authorize env o rules).trace := by
  obtain ⟨⟨h1, h2⟩, h3, h4⟩ := hreach
  by_cases h7 : FAILED o.hrCreateRule
  · simp [*, stepCoInitialize_ok, SUCCEEDED_iff, authorize_success, authorize_policy,
      authorize_trace, authorizeBody]
  by_cases h8 : FAILED o.hrPutName
  · simp [*, stepCoInitialize_ok, SUCCEEDED_iff, authorize_success, authorize_policy,
      authorize_trace, authorizeBody]
  by_cases h9 : FAILED o.hrPutApplicationName
  · simp [*, stepCoInitialize_ok, SUCCEEDED_iff, authorize_success, authorize_policy,
      authorize_trace, authorizeBody]
  by_cases h10 : FAILED o.hrPutAction
  · simp [*, stepCoInitialize_ok, SUCCEEDED_iff, authorize_success, authorize_policy,
      authorize_trace, authorizeBody]
  by_cases h11 : FAILED o.hrPutEnabled
  · simp [*, stepCoInitialize_ok, SUCCEEDED_iff, authorize_success, authorize_policy,
      authorize_trace, authorizeBody]
  by_cases h12 : FAILED o.hrPutDirection
  · simp [*, stepCoInitialize_ok, SUCCEEDED_iff, authorize_success, authorize_policy,
      authorize_trace, authorizeBody]
  by_cases h13 : FAILED o.hrAdd
  · simp [*, stepCoInitialize_ok, SUCCEEDED_iff, authorize_success, authorize_policy,
      authorize_trace, authorizeBody]
  exfalso
  rcases hlater with h | h | h | h | h | h | h
  · exact h7 h
  · exact h8 h
  · exact h9 h
  · exact h10 h
  · exact h11 h
  · exact h12 h
  · exact h13 h

/-- When the lookup is reached and fails, the call that follows it is the creation of the
new rule object. -/
theorem create_follows_failed_lookup (env : Env) (o : Outcomes) (rules : List FirewallRule)
    (hreach : o.reachesLookup) (h5 : FAILED o.hrItem) :
    ∃ pre post, (authorize env o rules).trace =
      pre ++ Call.Item env.APPLICATION_SHORT_NAME o.hrItem ::
        Call.CoCreateInstance_NetFwRule o.hrCreateRule :: post := by
  obtain ⟨⟨h1, h2⟩, h3, h4⟩ := hreach
  refine ⟨[Call.SysAllocString env.APPLICATION_SHORT_NAME o.bstrAllocated,
    Call.CoInitializeEx o.hrCoInitializeEx, Call.CoCreateInstance_NetFwPolicy2 o.hrCreatePolicy2,
    Call.get_Rules o.hrGetRules], List.drop 6 (authorize env o rules).trace, ?_⟩
  by_cases h7 : FAILED o.hrCreateRule
  · simp [*, stepCoInitialize_ok, stepCoInitialize_failed, SUCCEEDED_iff, authorize_trace,
      authorizeBody]
  by_cases h8 : FAILED o.hrPutName
  · simp [*, stepCoInitialize_ok, stepCoInitialize_failed, SUCCEEDED_iff, authorize_trace,
      authorizeBody]
  by_cases h9 : FAILED o.hrPutApplicationName
  · simp [*, stepCoInitialize_ok, stepCoInitialize_failed, SUCCEEDED_iff, authorize_trace,
      authorizeBody]
  by_cases h10 : FAILED o.hrPutAction
  · simp [*, stepCoInitialize_ok, stepCoInitialize_failed, SUCCEEDED_iff, authorize_trace,
      authorizeBody]
  by_cases h11 : FAILED o.hrPutEnabled
  · simp [*, stepCoInitialize_ok, stepCoInitialize_failed, SUCCEEDED_iff, authorize_trace,
      authorizeBody]
  by_cases h12 : FAILED o.hrPutDirection
  · simp [*, stepCoInitialize_ok, stepCoInitialize_failed, SUCCEEDED_iff, authorize_trace,
      authorizeBody]
  by_cases h13 : FAILED o.hrAdd
  · simp [*, stepCoInitialize_ok, stepCoInitialize_failed, SUCCEEDED_iff, authorize_trace,
      authorizeBody]
  simp [*, stepCoInitialize_ok, stepCoInitialize_failed, SUCCEEDED_iff, authorize_trace,
      authorizeBody]

/-- When the lookup fails and every later step succeeds, the built rule is submitted, the
result is `true`, and the collection is the initial one with that rule added. -/
theorem add_after_failed_lookup (env : Env) (o : Outcomes) (rules : List FirewallRule)
    (hreach : o.reachesLookup) (h5 : FAILED o.hrItem)
    (hrest : ¬ FAILED o.hrCreateRule ∧ ¬ FAILED o.hrPutName ∧ ¬ FAILED o.hrPutApplicationName ∧
      ¬ FAILED o.hrPutAction ∧ ¬ FAILED o.hrPutEnabled ∧ ¬ FAILED o.hrPutDirection ∧
      ¬ FAILED o.hrAdd) :
    Call.Add (builtRule env) o.hrAdd ∈ (authorize env o rules).trace ∧
    (authorize env o rules).success = true ∧
    (authorize env o rules).policy = policyAdd (builtRule env) rules := by
  obtain ⟨⟨h1, h2⟩, h3, h4⟩ := hreach
  obtain ⟨h7, h8, h9, h10, h11, h12, h13⟩ := hrest
  refine ⟨?_, ?_, ?_⟩
  · simp [*, stepCoInitialize_ok, SUCCEEDED_iff, authorize_trace, authorizeBody, builtRule]
  · simp [*, stepCoInitialize_ok, SUCCEEDED_iff, authorize_success, authorizeBody]
  · simp [*, stepCoInitialize_ok, SUCCEEDED_iff, authorize_policy, authorizeBody, builtRule]

theorem release_mem_cleanupCalls (s : State) (h : Handle)
    (hm : Call.Release h ∈ cleanupCalls s) :
    s.fwRule = some h ∨ s.fwRules = some h ∨ s.fwPolicy2 = some h := by
  obtain ⟨su, p2, r, rs, hr, hci, b, nr, pol, tr⟩ := s
  cases r <;> cases rs <;> cases p2 <;> by_cases hc : SUCCEEDED hci <;>
    simp [cleanupCalls, hc] at hm ⊢ <;> tauto

theorem toNativeSeparators_data (p : String) :
    (toNativeSeparators p).data = p.data.map (fun c => if c = '/' then '\\' else c) := rfl

/-! ## The claims -/

/-- C1: `authorize` returns `true` if and only if every step completes without error: the
identity string is allocated, `CoInitializeEx` does not fail (`RPC_E_CHANGED_MODE` counting
as not failing), the policy object is created, `get_Rules` succeeds, the lookup fails or is
followed by a successful `Remove`, the rule object is created, the five setters succeed
and `Add` succeeds; and it returns `false` exactly when one of these steps fails. -/
theorem authorize_true_iff (env : Env) (o : Outcomes) (rules : List FirewallRule) :
    ((authorize env o rules).success = true ↔
      (o.bstrAllocated = true ∧
       (o.hrCoInitializeEx = RPC_E_CHANGED_MODE ∨ SUCCEEDED o.hrCoInitializeEx) ∧
       SUCCEEDED o.hrCreatePolicy2 ∧
       SUCCEEDED o.hrGetRules ∧
       (FAILED o.hrItem ∨ SUCCEEDED o.hrRemove) ∧
       SUCCEEDED o.hrCreateRule ∧
       SUCCEEDED o.hrPutName ∧
       SUCCEEDED o.hrPutApplicationName ∧
       SUCCEEDED o.hrPutAction ∧
       SUCCEEDED o.hrPutEnabled ∧
       SUCCEEDED o.hrPutDirection ∧
       SUCCEEDED o.hrAdd)) ∧
    ((authorize env o rules).success = false ↔
      (o.bstrAllocated = false ∨
       (o.hrCoInitializeEx ≠ RPC_E_CHANGED_MODE ∧ FAILED o.hrCoInitializeEx) ∨
       FAILED o.hrCreatePolicy2 ∨
       FAILED o.hrGetRules ∨
       (SUCCEEDED o.hrItem ∧ FAILED o.hrRemove) ∨
       FAILED o.hrCreateRule ∨
       FAILED o.hrPutName ∨
       FAILED o.hrPutApplicationName ∨
       FAILED o.hrPutAction ∨
       FAILED o.hrPutEnabled ∨
       FAILED o.hrPutDirection ∨
       FAILED o.hrAdd)) := by
  have key := authorize_success_iff env o rules
  refine ⟨?_, ?_⟩
  · rw [key]
    simp only [SUCCEEDED_iff]
  · rw [← Bool.not_eq_true, key]
    rw [← Bool.not_eq_true]
    simp only [SUCCEEDED_iff, ne_eq, not_and_or, not_or, not_not]

/-- C2: with no failing call, two runs in succession leave the collection that one run
leaves, and in it the rules named with the identity are exactly one rule: the executable
path in native form, Allow, enabled, Inbound.  Both runs return `true`. -/
theorem authorize_idempotent (env : Env) (rules : List FirewallRule) (o1 o2 : Outcomes)
    (h1 : o1.noFailure) (h2 : o2.noFailure) :
    (authorizeOn env o1 rules).success = true ∧
    (authorizeOn env o2 (authorizeOn env o1 rules).policy).success = true ∧
    (authorizeOn env o2 (authorizeOn env o1 rules).policy).policy =
      (authorizeOn env o1 rules).policy ∧
    rulesNamed env.APPLICATION_SHORT_NAME (authorizeOn env o1 rules).policy =
      [{ name := some env.APPLICATION_SHORT_NAME
         applicationName := some (toNativeSeparators env.applicationFilePath)
         action := some NET_FW_ACTION.NET_FW_ACTION_ALLOW
         enabled := some true
         direction := some NET_FW_RULE_DIRECTION.NET_FW_RULE_DIR_IN }] := by
  have hs1 := authorizeOn_success env o1 rules h1
  have hs2 := authorizeOn_success env o2 (authorizeOn env o1 rules).policy h2
  refine ⟨hs1, hs2, ?_, rulesNamed_after_success env o1 rules hs1⟩
  rw [authorizeOn_policy env o2 _ hs2, authorizeOn_policy env o1 rules hs1,
    policyRemove_policyAdd_builtRule, policyRemove_idem]

theorem authorize_idempotent_witness :
    allOk.noFailure ∧
    (authorizeOn myApp allOk (authorizeOn myApp allOk [staleRule, otherRule]).policy).policy =
      (authorizeOn myApp allOk [staleRule, otherRule]).policy ∧
    rulesNamed "MyApp" (authorizeOn myApp allOk [staleRule, otherRule]).policy =
      [{ name := some "MyApp"
         applicationName := some "C:\\Program Files\\MyApp\\app.exe"
         action := some NET_FW_ACTION.NET_FW_ACTION_ALLOW
         enabled := some true
         direction := some NET_FW_RULE_DIRECTION.NET_FW_RULE_DIR_IN }] :=
  ⟨by decide,
    (authorize_idempotent myApp [staleRule, otherRule] allOk allOk (by decide) (by decide)).2.2.1,
    (authorize_idempotent myApp [staleRule, otherRule] allOk allOk (by decide) (by decide)).2.2.2⟩

/-- C3 (as amended): after `N ≥ 1` consecutive runs that each return `true` and in each of
which the lookup fails only if no rule with the identity is stored, whatever the initial
collection, exactly one rule of the collection carries the identity as its name (and it is
the rule built by the last run). -/
theorem replacement_not_duplication (env : Env) (os : List Outcomes)
    (rules : List FirewallRule) (hN : 1 ≤ os.length)
    (hlook : lookupsFailOnlyIfAbsent env os rules)
    (hok : ∀ b ∈ (authorizeN env os rules).1, b = true) :
    (rulesNamed env.APPLICATION_SHORT_NAME (authorizeN env os rules).2).length = 1 ∧
    rulesNamed env.APPLICATION_SHORT_NAME (authorizeN env os rules).2 = [builtRule env] := by
  have hne : os ≠ [] := by
    intro h
    rw [h] at hN
    exact absurd hN (by decide)
  have h := authorizeN_named env os rules hne hlook hok
  exact ⟨by rw [h]; rfl, h⟩

theorem replacement_not_duplication_witness :
    1 ≤ [lookupNotFound, allOk, allOk].length ∧
    lookupsFailOnlyIfAbsent myApp [lookupNotFound, allOk, allOk] [otherRule] ∧
    (authorizeN myApp [lookupNotFound, allOk, allOk] [otherRule]).1 = [true, true, true] ∧
    (rulesNamed myApp.APPLICATION_SHORT_NAME
      (authorizeN myApp [lookupNotFound, allOk, allOk] [otherRule]).2).length = 1 :=
  ⟨by decide, by decide, by decide,
    (replacement_not_duplication myApp [lookupNotFound, allOk, allOk] [otherRule]
      (by decide) (by decide) (by decide)).1⟩

/-- C3 as stated fails: a single run in which the lookup returns access denied although a
rule named with the identity is stored skips `Remove`, adds the new rule and returns `true`,
leaving two rules under the identity; three such runs from an empty collection all return
`true` and leave three. -/
theorem replacement_not_duplication_counterexample :
    (1 ≤ [lookupDenied].length ∧
      (authorizeN myApp [lookupDenied] [staleRule]).1 = [true] ∧
      (∀ n hr, Call.Remove n hr ∉ (authorize myApp lookupDenied [staleRule]).trace) ∧
      (rulesNamed myApp.APPLICATION_SHORT_NAME
        (authorizeN myApp [lookupDenied] [staleRule]).2).length = 2) ∧
    ((authorizeN myApp [lookupDenied, lookupDenied, lookupDenied] []).1 = [true, true, true] ∧
      (rulesNamed myApp.APPLICATION_SHORT_NAME
        (authorizeN myApp [lookupDenied, lookupDenied, lookupDenied] []).2).length = 3) := by
  refine ⟨⟨by decide, by decide, ?_, by decide⟩, by decide, by decide⟩
  intro n hr hmem
  exact (remove_after_lookup myApp lookupDenied [staleRule] n hr hmem).1 (by decide)

/-- C4: in every run the delete call `Remove` (always with the identity as argument) is
issued only directly after a lookup `Item` of the identity that succeeded; when the lookup
is reached and reports no rule, no `Remove` call is made at all, the next call is the
creation of the new rule object, and if no later step fails the built rule is submitted
with `Add` and the result is `true`. -/
theorem no_remove_on_absence (env : Env) (o : Outcomes) (rules : List FirewallRule) :
    (∀ n hr, Call.Remove n hr ∈ (authorize env o rules).trace →
      SUCCEEDED o.hrItem ∧ n = env.APPLICATION_SHORT_NAME ∧
      ∃ pre post, (authorize env o rules).trace =
        pre ++ Call.Item env.APPLICATION_SHORT_NAME o.hrItem ::
          Call.qInfo "Rule already present in Windows Firewall, removing it" ::
          Call.Remove n hr :: post) ∧
    (o.reachesLookup → FAILED o.hrItem →
      (∀ n hr, Call.Remove n hr ∉ (authorize env o rules).trace) ∧
      (∃ pre post, (authorize env o rules).trace =
        pre ++ Call.Item env.APPLICATION_SHORT_NAME o.hrItem ::
          Call.CoCreateInstance_NetFwRule o.hrCreateRule :: post) ∧
      (SUCCEEDED o.hrCreateRule ∧ SUCCEEDED o.hrPutName ∧ SUCCEEDED o.hrPutApplicationName ∧
        SUCCEEDED o.hrPutAction ∧ SUCCEEDED o.hrPutEnabled ∧ SUCCEEDED o.hrPutDirection ∧
        SUCCEEDED o.hrAdd →
        Call.Add (builtRule env) o.hrAdd ∈ (authorize env o rules).trace ∧
        (authorize env o rules).success = true)) := by
  refine ⟨?_, ?_⟩
  · intro n hr hmem
    obtain ⟨hs, hn, _, hex⟩ := remove_after_lookup env o rules n hr hmem
    exact ⟨(SUCCEEDED_iff _).mpr hs, hn, hex⟩
  · intro hreach h5
    refine ⟨?_, create_follows_failed_lookup env o rules hreach h5, ?_⟩
    · intro n hr hmem
      exact (remove_after_lookup env o rules n hr hmem).1 h5
    · intro hrest
      simp only [SUCCEEDED_iff] at hrest
      exact ⟨(add_after_failed_lookup env o rules hreach h5 hrest).1,
        (add_after_failed_lookup env o rules hreach h5 hrest).2.1⟩

theorem no_remove_on_absence_witness :
    ({ allOk with hrItem := E_FILE_NOT_FOUND } : Outcomes).reachesLookup ∧
    FAILED ({ allOk with hrItem := E_FILE_NOT_FOUND } : Outcomes).hrItem ∧
    (∀ n hr, Call.Remove n hr ∉
      (authorize myApp { allOk with hrItem := E_FILE_NOT_FOUND } [otherRule]).trace) ∧
    (authorize myApp { allOk with hrItem := E_FILE_NOT_FOUND } [otherRule]).success = true :=
  ⟨by decide, by decide,
    ((no_remove_on_absence myApp { allOk with hrItem := E_FILE_NOT_FOUND } [otherRule]).2
      (by decide) (by decide)).1,
    (((no_remove_on_absence myApp { allOk with hrItem := E_FILE_NOT_FOUND } [otherRule]).2
      (by decide) (by decide)).2.2 (by decide)).2⟩

set_option maxHeartbeats 4000000 in
/-- C5: when one of the steps policy creation, `get_Rules`, `Remove`, rule creation,
`put_Name`, `put_ApplicationName`, `put_Action`, `put_Enabled`, `put_Direction`, `Add` is
reached with every earlier step completed and returns a failure code, the result is
`false` and the calls made are: calls of earlier steps only, then the failing call, then
nothing but log output and releases (no further call to the policy service), each
`Release` being of a handle acquired before the failing call. -/
theorem fail_fast (env : Env) (o : Outcomes) (rules : List FirewallRule) (k : Step)
    (hreach : k.reached o) (hfail : FAILED (k.code o)) :
    (authorize env o rules).success = false ∧
    ∃ pre post, (authorize env o rules).trace = pre ++ k.call env o :: post ∧
      (∀ c ∈ pre, ∀ j, c.step = some j → j.index < k.index) ∧
      (∀ c ∈ post, c.isPolicyCall = false ∧ (c.isLog = true ∨ c.isRelease = true)) ∧
      (∀ h, Call.Release h ∈ post → h ∈ acquired pre) := by
  rw [authorize_success, authorize_trace]
  refine ⟨?_, List.takeWhile (fun c => decide (c ≠ k.call env o))
        (authorizeBody env o rules).state.trace,
      (List.dropWhile (fun c => decide (c ≠ k.call env o))
        (authorizeBody env o rules).state.trace).tail ++
        cleanupCalls (authorizeBody env o rules).state, ?_, ?_, ?_, ?_⟩
  · cases k <;> by_cases h5 : FAILED o.hrItem <;>
      simp only [Step.reached, Step.code, Outcomes.reachesCreateRule, Outcomes.reachesLookup,
        Outcomes.initialised, SUCCEEDED_iff] at hreach hfail <;>
      (try simp only [h5, not_true_eq_false, not_false_eq_true, false_or, true_or, and_true,
        and_false, or_false, or_true] at hreach) <;>
      simp [authorizeBody, hreach, hfail, h5, stepCoInitialize_ok, SUCCEEDED_iff]
  · cases k <;> by_cases h5 : FAILED o.hrItem <;>
      simp only [Step.reached, Step.code, Outcomes.reachesCreateRule, Outcomes.reachesLookup,
        Outcomes.initialised, SUCCEEDED_iff] at hreach hfail <;>
      (try simp only [h5, not_true_eq_false, not_false_eq_true, false_or, true_or, and_true,
        and_false, or_false, or_true] at hreach) <;>
      simp [authorizeBody, hreach, hfail, h5, stepCoInitialize_ok, SUCCEEDED_iff, Step.call,
        builtRule]
  · cases k <;> by_cases h5 : FAILED o.hrItem <;>
      simp only [Step.reached, Step.code, Outcomes.reachesCreateRule, Outcomes.reachesLookup,
        Outcomes.initialised, SUCCEEDED_iff] at hreach hfail <;>
      (try simp only [h5, not_true_eq_false, not_false_eq_true, false_or, true_or, and_true,
        and_false, or_false, or_true] at hreach) <;>
      simp [authorizeBody, hreach, hfail, h5, stepCoInitialize_ok, SUCCEEDED_iff, Step.call,
        builtRule, Call.step, Step.index]
  · intro c hc
    rw [List.mem_append] at hc
    rcases hc with hc | hc
    · revert hc
      cases k <;> by_cases h5 : FAILED o.hrItem <;>
        simp only [Step.reached, Step.code, Outcomes.reachesCreateRule, Outcomes.reachesLookup,
          Outcomes.initialised, SUCCEEDED_iff] at hreach hfail <;>
        (try simp only [h5, not_true_eq_false, not_false_eq_true, false_or, true_or, and_true,
          and_false, or_false, or_true] at hreach) <;>
        simp [authorizeBody, hreach, hfail, h5, stepCoInitialize_ok, SUCCEEDED_iff, Step.call,
          builtRule] <;>
        (intro hc; subst hc; simp [Call.isPolicyCall, Call.isLog])
    · have := cleanupCalls_isRelease _ c hc
      cases c <;> simp_all [Call.isRelease, Call.isPolicyCall]
  · intro h hh
    rw [List.mem_append] at hh
    rcases hh with hh | hh
    · revert hh
      cases k <;> by_cases h5 : FAILED o.hrItem <;>
        simp only [Step.reached, Step.code, Outcomes.reachesCreateRule, Outcomes.reachesLookup,
          Outcomes.initialised, SUCCEEDED_iff] at hreach hfail <;>
        (try simp only [h5, not_true_eq_false, not_false_eq_true, false_or, true_or, and_true,
          and_false, or_false, or_true] at hreach) <;>
        simp [authorizeBody, hreach, hfail, h5, stepCoInitialize_ok, SUCCEEDED_iff, Step.call,
          builtRule]
    · have := release_mem_cleanupCalls _ h hh
      revert this
      cases k <;> by_cases h5 : FAILED o.hrItem <;>
        simp only [Step.reached, Step.code, Outcomes.reachesCreateRule, Outcomes.reachesLookup,
          Outcomes.initialised, SUCCEEDED_iff] at hreach hfail <;>
        (try simp only [h5, not_true_eq_false, not_false_eq_true, false_or, true_or, and_true,
          and_false, or_false, or_true] at hreach) <;>
        simp [authorizeBody, hreach, hfail, h5, stepCoInitialize_ok, SUCCEEDED_iff, Step.call,
          builtRule, acquired, Call.acquires] <;>
        (clear hh; cases h <;> decide)

theorem fail_fast_witness :
    Step.add.reached { allOk with hrAdd := E_ACCESSDENIED } ∧
    FAILED (Step.add.code { allOk with hrAdd := E_ACCESSDENIED }) ∧
    (authorize myApp { allOk with hrAdd := E_ACCESSDENIED } [staleRule]).success = false :=
  ⟨by decide, by decide,
    (fail_fast myApp { allOk with hrAdd := E_ACCESSDENIED } [staleRule] Step.add
      (by decide) (by decide)).1⟩

/-- C6 (defect): whenever the lookup succeeds, `authorize` acquires the handle of the found
rule once; `Cleanup` releases it once when the following `Remove` fails, but when `Remove`
succeeds the pointer is overwritten (`fwRule = nullptr`) and the handle is never released. -/
theorem found_rule_handle_leaked (env : Env) (o : Outcomes) (rules : List FirewallRule)
    (hreach : o.reachesLookup) (hitem : SUCCEEDED o.hrItem) :
    (acquired (authorize env o rules).trace).count Handle.foundRule = 1 ∧
    (released (authorize env o rules).trace).count Handle.foundRule =
      if FAILED o.hrRemove then 1 else 0 := by
  obtain ⟨⟨h1, h2⟩, h3, h4⟩ := hreach
  have h5 : ¬ FAILED o.hrItem := (SUCCEEDED_iff _).mp hitem
  rw [authorize_trace, released_append, acquired_append, released_cleanupCalls,
    acquired_cleanupCalls, authorizeBody]
  by_cases h6 : FAILED o.hrRemove
  · simp [*, stepCoInitialize_ok, stepCoInitialize_failed, SUCCEEDED_iff, acquired, released,
      Call.acquires, Call.releases]
  by_cases h7 : FAILED o.hrCreateRule
  · simp [*, stepCoInitialize_ok, stepCoInitialize_failed, SUCCEEDED_iff, acquired, released,
      Call.acquires, Call.releases]
  by_cases h8 : FAILED o.hrPutName
  · simp [*, stepCoInitialize_ok, stepCoInitialize_failed, SUCCEEDED_iff, acquired, released,
      Call.acquires, Call.releases]
  by_cases h9 : FAILED o.hrPutApplicationName
  · simp [*, stepCoInitialize_ok, stepCoInitialize_failed, SUCCEEDED_iff, acquired, released,
      Call.acquires, Call.releases]
  by_cases h10 : FAILED o.hrPutAction
  · simp [*, stepCoInitialize_ok, stepCoInitialize_failed, SUCCEEDED_iff, acquired, released,
      Call.acquires, Call.releases]
  by_cases h11 : FAILED o.hrPutEnabled
  · simp [*, stepCoInitialize_ok, stepCoInitialize_failed, SUCCEEDED_iff, acquired, released,
      Call.acquires, Call.releases]
  by_cases h12 : FAILED o.hrPutDirection
  · simp [*, stepCoInitialize_ok, stepCoInitialize_failed, SUCCEEDED_iff, acquired, released,
      Call.acquires, Call.releases]
  by_cases h13 : FAILED o.hrAdd
  · simp [*, stepCoInitialize_ok, stepCoInitialize_failed, SUCCEEDED_iff, acquired, released,
      Call.acquires, Call.releases]
  simp [*, stepCoInitialize_ok, stepCoInitialize_failed, SUCCEEDED_iff, acquired, released,
      Call.acquires, Call.releases]

theorem found_rule_handle_leaked_witness :
    allOk.reachesLookup ∧ SUCCEEDED allOk.hrItem ∧
    (authorize myApp allOk [staleRule]).success = true ∧
    (acquired (authorize myApp allOk [staleRule]).trace).count Handle.foundRule = 1 ∧
    (released (authorize myApp allOk [staleRule]).trace).count Handle.foundRule = 0 :=
  ⟨by decide, by decide, by decide,
    (found_rule_handle_leaked myApp allOk [staleRule] (by decide) (by decide)).1,
    (found_rule_handle_leaked myApp allOk [staleRule] (by decide) (by decide)).2⟩

/-- C7: when a rule with the identity exists, the lookup and the `Remove` succeed, and a
later step (creating the rule object, a setter, or `Add`) fails, the run returns `false`
and leaves a collection with no rule named with the identity: the initial collection
without the rules of that name, nothing added. -/
theorem no_rollback (env : Env) (o : Outcomes) (rules : List FirewallRule)
    (hex : ∃ r ∈ rules, r.name = some env.APPLICATION_SHORT_NAME)
    (hreach : o.reachesLookup) (hrem : SUCCEEDED o.hrRemove)
    (hlater : FAILED o.hrCreateRule ∨ FAILED o.hrPutName ∨ FAILED o.hrPutApplicationName ∨
      FAILED o.hrPutAction ∨ FAILED o.hrPutEnabled ∨ FAILED o.hrPutDirection ∨ FAILED o.hrAdd) :
    (authorizeOn env o rules).success = false ∧
    rulesNamed env.APPLICATION_SHORT_NAME (authorizeOn env o rules).policy = [] ∧
    (∀ r ∈ (authorizeOn env o rules).policy, r.name ≠ some env.APPLICATION_SHORT_NAME) ∧
    (authorizeOn env o rules).policy = policyRemove env.APPLICATION_SHORT_NAME rules := by
  have hitem : ¬ FAILED (policyItem env.APPLICATION_SHORT_NAME rules) := by
    rw [policyItem_failed_iff]
    intro hall
    obtain ⟨r, hr, hn⟩ := hex
    exact hall r hr hn
  have hmain := policy_after_failed_replacement env
    { o with hrItem := policyItem env.APPLICATION_SHORT_NAME rules } rules hreach hitem
    ((SUCCEEDED_iff _).mp hrem) hlater
  unfold authorizeOn
  refine ⟨hmain.1, ?_, ?_, hmain.2.1⟩
  · rw [hmain.2.1, rulesNamed_policyRemove]
  · rw [hmain.2.1]
    intro r hr
    simpa [policyRemove] using (List.mem_filter.mp hr).2

theorem no_rollback_witness :
    (∃ r ∈ [staleRule, otherRule], r.name = some myApp.APPLICATION_SHORT_NAME) ∧
    (authorizeOn myApp { allOk with hrAdd := E_ACCESSDENIED } [staleRule, otherRule]).success
      = false ∧
    (authorizeOn myApp { allOk with hrAdd := E_ACCESSDENIED } [staleRule, otherRule]).policy
      = [otherRule] :=
  ⟨⟨staleRule, by decide, by decide⟩,
    (no_rollback myApp { allOk with hrAdd := E_ACCESSDENIED } [staleRule, otherRule]
      ⟨staleRule, by decide, by decide⟩ (by decide) (by decide) (by decide)).1,
    (no_rollback myApp { allOk with hrAdd := E_ACCESSDENIED } [staleRule, otherRule]
      ⟨staleRule, by decide, by decide⟩ (by decide) (by decide) (by decide)).2.2.2⟩

/-- C8: in every run the only value passed to `put_ApplicationName` is the native form of
`QCoreApplication::applicationFilePath()`, the call is made with that value whenever the
setter is reached, and the rule submitted with `Add` (which a successful run does submit)
carries it as its application path.  The native form has the same length as the path, has
`\` wherever the path has `/`, and every other character unchanged.  The working directory
has no influence on the run. -/
theorem path_fidelity (env : Env) (o : Outcomes) (rules : List FirewallRule) :
    (∀ path hr, Call.put_ApplicationName path hr ∈ (authorize env o rules).trace →
      path = toNativeSeparators env.applicationFilePath) ∧
    (Step.putApplicationName.reached o →
      Call.put_ApplicationName (toNativeSeparators env.applicationFilePath)
        o.hrPutApplicationName ∈ (authorize env o rules).trace) ∧
    (∀ r hr, Call.Add r hr ∈ (authorize env o rules).trace →
      r.applicationName = some (toNativeSeparators env.applicationFilePath)) ∧
    ((authorize env o rules).success = true →
      ∃ r, Call.Add r o.hrAdd ∈ (authorize env o rules).trace) ∧
    (toNativeSeparators env.applicationFilePath).length = env.applicationFilePath.length ∧
    (∀ i : Nat, (toNativeSeparators env.applicationFilePath).data[i]? =
      (env.applicationFilePath.data[i]?).map (fun c => if c = '/' then '\\' else c)) ∧
    (∀ d, authorize { env with currentPath := d } o rules = authorize env o rules) := by
  refine ⟨?_, ?_, ?_, ?_, ?_, ?_, ?_⟩
  · intro path hr hmem
    rw [authorize_trace, List.mem_append] at hmem
    exact (body_arguments env o rules).1 path hr
      (hmem.resolve_right (not_mem_cleanupCalls _ _ rfl))
  · intro hreach
    obtain ⟨⟨⟨⟨h1, h2⟩, h3, h4⟩, h56⟩, h7, h8⟩ := hreach
    rw [SUCCEEDED_iff, not_not] at h56
    rw [authorize_trace, List.mem_append]
    left
    by_cases h5 : FAILED o.hrItem
    · simp [*, stepCoInitialize_ok, SUCCEEDED_iff, authorizeBody]
      by_cases h9 : FAILED o.hrPutApplicationName
      · simp [*]
      by_cases h10 : FAILED o.hrPutAction
      · simp [*]
      by_cases h11 : FAILED o.hrPutEnabled
      · simp [*]
      by_cases h12 : FAILED o.hrPutDirection
      · simp [*]
      by_cases h13 : FAILED o.hrAdd
      · simp [*]
      simp [*]
    · have h6 : ¬ FAILED o.hrRemove := h56.resolve_left h5
      simp [*, stepCoInitialize_ok, SUCCEEDED_iff, authorizeBody]
      by_cases h9 : FAILED o.hrPutApplicationName
      · simp [*]
      by_cases h10 : FAILED o.hrPutAction
      · simp [*]
      by_cases h11 : FAILED o.hrPutEnabled
      · simp [*]
      by_cases h12 : FAILED o.hrPutDirection
      · simp [*]
      by_cases h13 : FAILED o.hrAdd
      · simp [*]
      simp [*]
  · intro r hr hmem
    rw [authorize_trace, List.mem_append] at hmem
    rw [(body_arguments env o rules).2 r hr
      (hmem.resolve_right (not_mem_cleanupCalls _ _ rfl))]
    rfl
  · intro hs
    refine ⟨builtRule env, ?_⟩
    obtain ⟨h1, h2, h3, h4, h56, h7, h8, h9, h10, h11, h12, h13⟩ :=
      (authorize_success_iff env o rules).mp hs
    rw [authorize_trace, List.mem_append]
    left
    by_cases h5 : FAILED o.hrItem
    · simp [*, stepCoInitialize_ok, SUCCEEDED_iff, authorizeBody, builtRule]
    · have h6 : ¬ FAILED o.hrRemove := h56.resolve_left h5
      simp [*, stepCoInitialize_ok, SUCCEEDED_iff, authorizeBody, builtRule]
  · show (toNativeSeparators env.applicationFilePath).data.length =
      env.applicationFilePath.data.length
    rw [toNativeSeparators_data, List.length_map]
  · intro i
    rw [toNativeSeparators_data, List.getElem?_map]
  · intro d
    rfl

theorem path_fidelity_witness :
    Step.putApplicationName.reached allOk ∧
    Call.put_ApplicationName (toNativeSeparators myApp.applicationFilePath)
      allOk.hrPutApplicationName ∈ (authorize myApp allOk [staleRule]).trace ∧
    toNativeSeparators myApp.applicationFilePath = "C:\\Program Files\\MyApp\\app.exe" :=
  ⟨by decide, (path_fidelity myApp allOk [staleRule]).2.1 (by decide), by decide⟩

/-- C9 (defect): when the identity string cannot be allocated, `authorize` leaves before
calling `CoInitializeEx`, yet `Cleanup` calls `CoUninitialize` once, because `hrComInit`
starts as `S_FALSE`, a success code.  When the string is allocated, `CoInitializeEx` is
called once and `CoUninitialize` is called once if it returned a success code and not at
all otherwise. -/
theorem couninitialize_unbalanced (env : Env) (o : Outcomes) (rules : List FirewallRule) :
    (o.bstrAllocated = false →
      (∀ hr, Call.CoInitializeEx hr ∉ (authorize env o rules).trace) ∧
      (authorize env o rules).trace.count Call.CoUninitialize = 1) ∧
    (o.bstrAllocated = true →
      (authorize env o rules).trace.count (Call.CoInitializeEx o.hrCoInitializeEx) = 1 ∧
      (authorize env o rules).trace.count Call.CoUninitialize =
        if SUCCEEDED o.hrCoInitializeEx then 1 else 0) := by
  refine ⟨?_, ?_⟩
  · intro h1
    simp [h1, authorize, authorizeBody, Cleanup, not_FAILED_S_FALSE, SUCCEEDED_iff,
      List.count_cons]
  · intro h1
    rw [authorize_trace, List.count_append, List.count_append,
      count_CoUninitialize_cleanupCalls, authorizeBody]
    have hcl : ∀ s : State, (cleanupCalls s).count (Call.CoInitializeEx o.hrCoInitializeEx) = 0 :=
      fun s => List.count_eq_zero.mpr (not_mem_cleanupCalls s _ rfl)
    rw [hcl]
    by_cases h2 : o.hrCoInitializeEx = RPC_E_CHANGED_MODE ∨ ¬ FAILED o.hrCoInitializeEx
    swap
    · simp [*, stepCoInitialize_ok, stepCoInitialize_failed, SUCCEEDED_iff, List.count_cons]
    by_cases h3 : FAILED o.hrCreatePolicy2
    · simp [*, stepCoInitialize_ok, stepCoInitialize_failed, SUCCEEDED_iff, List.count_cons]
    by_cases h4 : FAILED o.hrGetRules
    · simp [*, stepCoInitialize_ok, stepCoInitialize_failed, SUCCEEDED_iff, List.count_cons]
    by_cases h5 : FAILED o.hrItem <;> by_cases h6 : FAILED o.hrRemove
    rotate_left 2
    · simp [*, stepCoInitialize_ok, stepCoInitialize_failed, SUCCEEDED_iff, List.count_cons]
    all_goals
      (by_cases h7 : FAILED o.hrCreateRule
       · simp [*, stepCoInitialize_ok, stepCoInitialize_failed, SUCCEEDED_iff, List.count_cons])
    all_goals
      (by_cases h8 : FAILED o.hrPutName
       · simp [*, stepCoInitialize_ok, stepCoInitialize_failed, SUCCEEDED_iff, List.count_cons])
    all_goals
      (by_cases h9 : FAILED o.hrPutApplicationName
       · simp [*, stepCoInitialize_ok, stepCoInitialize_failed, SUCCEEDED_iff, List.count_cons])
    all_goals
      (by_cases h10 : FAILED o.hrPutAction
       · simp [*, stepCoInitialize_ok, stepCoInitialize_failed, SUCCEEDED_iff, List.count_cons])
    all_goals
      (by_cases h11 : FAILED o.hrPutEnabled
       · simp [*, stepCoInitialize_ok, stepCoInitialize_failed, SUCCEEDED_iff, List.count_cons])
    all_goals
      (by_cases h12 : FAILED o.hrPutDirection
       · simp [*, stepCoInitialize_ok, stepCoInitialize_failed, SUCCEEDED_iff, List.count_cons])
    all_goals
      (by_cases h13 : FAILED o.hrAdd
       · simp [*, stepCoInitialize_ok, stepCoInitialize_failed, SUCCEEDED_iff, List.count_cons])
    all_goals simp [*, stepCoInitialize_ok, stepCoInitialize_failed, SUCCEEDED_iff, List.count_cons]

theorem couninitialize_unbalanced_witness :
    ({ allOk with bstrAllocated := false } : Outcomes).bstrAllocated = false ∧
    (∀ hr, Call.CoInitializeEx hr ∉
      (authorize myApp { allOk with bstrAllocated := false } []).trace) ∧
    (authorize myApp { allOk with bstrAllocated := false } []).trace.count
      Call.CoUninitialize = 1 :=
  ⟨rfl, ((couninitialize_unbalanced myApp { allOk with bstrAllocated := false } []).1 rfl).1,
    ((couninitialize_unbalanced myApp { allOk with bstrAllocated := false } []).1 rfl).2⟩

/-- C10: for every 32-bit status code `v` (negative ones included) `toWinHex v` has exactly
10 characters, `0x` followed by 8 digits drawn from `0`-`9`, `A`-`F`, and these digits read
in base 16 give `v mod 2^32`; hence `toWinHex` is injective on 32-bit values.  The code
0x80070005 held as a negative value gives `0x80070005`, and 0 gives `0x00000000`. -/
theorem toWinHex_fixed_width (v : HRESULT) (hv : isInt32 v) :
    (toWinHex v).length = 10 ∧
    (∃ ds : List Char, (toWinHex v).data = '0' :: 'x' :: ds ∧ ds.length = 8 ∧
      (∀ c ∈ ds, isUpperHexDigit c) ∧ (hexValue ds : Int) = v % 4294967296) ∧
    (∀ w : HRESULT, isInt32 w → toWinHex w = toWinHex v → w = v) ∧
    toWinHex E_ACCESSDENIED = "0x80070005" ∧
    toWinHex 0 = "0x00000000" := by
  obtain ⟨hlen, hdig, hval⟩ := toWinHex_digits v
  refine ⟨?_, ⟨_, toWinHex_data v, hlen, hdig, ?_⟩, ?_, ?_, ?_⟩
  · rw [String.length, toWinHex_data]
    simp [hlen]
  · rw [hval]
    unfold toULong
    exact Int.toNat_of_nonneg (Int.emod_nonneg v (by decide))
  · intro w hw heq
    apply toULong_inj w v hw hv
    have hd : (toWinHex w).data = (toWinHex v).data := by rw [heq]
    rw [toWinHex_data, toWinHex_data] at hd
    have hd2 := (List.cons_injective (List.cons_injective hd))
    rw [← (toWinHex_digits w).2.2, ← (toWinHex_digits v).2.2, hd2]
  · have h1 : toULong E_ACCESSDENIED = 2147942405 := by decide
    have h2 : QString_number 2147942405 16 = ['8', '0', '0', '7', '0', '0', '0', '5'] := by
      simp [QString_number, qulltoa, digitChar]
    unfold toWinHex
    rw [h1, h2]
    decide
  · have h1 : toULong 0 = 0 := by decide
    have h2 : QString_number 0 16 = ['0'] := by
      simp [QString_number, qulltoa]
    unfold toWinHex
    rw [h1, h2]
    decide

theorem toWinHex_fixed_width_witness :
    isInt32 E_ACCESSDENIED ∧
    ((toWinHex E_ACCESSDENIED).length = 10 ∧
    (∃ ds : List Char, (toWinHex E_ACCESSDENIED).data = '0' :: 'x' :: ds ∧ ds.length = 8 ∧
      (∀ c ∈ ds, isUpperHexDigit c) ∧ (hexValue ds : Int) = E_ACCESSDENIED % 4294967296) ∧
    (∀ w : HRESULT, isInt32 w → toWinHex w = toWinHex E_ACCESSDENIED → w = E_ACCESSDENIED) ∧
    toWinHex E_ACCESSDENIED = "0x80070005" ∧
    toWinHex 0 = "0x00000000") :=
  ⟨by decide, toWinHex_fixed_width E_ACCESSDENIED (by decide)⟩

end WindowsFirewallHelper
